import Mathlib

/-
Verification development for the football statistics backend.

The definitions below are a shallow embedding of the repository's code:

* `app/models.py`               — the relational rows (one structure per table,
                                  columns kept with their names and nullability:
                                  a nullable column is an `Option`).
* `app/routers/ingestion/*.py`  — the synchronization routines, modelled as
                                  functions on explicit list-of-row stores.
                                  Per-statement commits are modelled by
                                  returning, next to the final state, the list
                                  of intermediate committed states; an
                                  exception at some point of the routine
                                  rolls the session back to the most recent
                                  committed state.
* `app/routers/retrieval/*.py`  — the read-side aggregation queries, modelled
                                  as pure functions over the stores, with SQL
                                  NULL comparison semantics made explicit on
                                  `Option Int` columns.

Autoincrement primary keys are drawn from a single `next_id` counter carried
by each store (the real database uses one sequence per table; a single
counter keeps generated ids unique, which is all the code relies on).
-/

set_option linter.unusedVariables false

namespace FootballBackend

/-! ## Rows of the odds tree (app/models.py: FixtureOdds, FixtureBookmaker,
Bet, OddValue, Bookmaker, BetType) -/

/-- Row of `fixture_odds` (models.FixtureOdds): `fixture_id` carries a UNIQUE
constraint; `update_time` is modelled as an integer timestamp. -/
structure FixtureOddsRow where
  id : Nat
  fixture_id : Nat
  update_time : Int
deriving Repr, DecidableEq

/-- Row of `fixture_bookmakers` (models.FixtureBookmaker). -/
structure FixtureBookmakerRow where
  id : Nat
  fixture_odds_id : Nat
  bookmaker_id : Nat
deriving Repr, DecidableEq

/-- Row of `bets` (models.Bet). -/
structure BetRow where
  id : Nat
  fixture_bookmaker_id : Nat
  bet_type_id : Nat
deriving Repr, DecidableEq

/-- Row of `odd_values` (models.OddValue). -/
structure OddValueRow where
  id : Nat
  bet_id : Nat
  value : String
  odd : String
deriving Repr, DecidableEq

/-- Row of `bookmakers` (models.Bookmaker). -/
structure BookmakerRow where
  id : Nat
  name : String
deriving Repr, DecidableEq

/-- Row of `bet_types` (models.BetType). -/
structure BetTypeRow where
  id : Nat
  name : String
deriving Repr, DecidableEq

/-- The tables touched by the odds ingestion routines, plus the autoincrement
counter for generated primary keys. -/
structure OddsStore where
  fixture_odds : List FixtureOddsRow
  fixture_bookmakers : List FixtureBookmakerRow
  bets : List BetRow
  odd_values : List OddValueRow
  bookmakers : List BookmakerRow
  bet_types : List BetTypeRow
  next_id : Nat
deriving Repr, DecidableEq

/-! ## The odds payload, as parsed from the external API response
(`response[i]` of the `/odds` resource). -/

/-- One entry of a bet's `values` array. -/
structure OddValuePayload where
  value : String
  odd : String
deriving Repr, DecidableEq

/-- One entry of a bookmaker's `bets` array. -/
structure BetPayload where
  bet_type_id : Nat
  bet_type_name : String
  values : List OddValuePayload
deriving Repr, DecidableEq

/-- One entry of an odds entry's `bookmakers` array. -/
structure BookmakerPayload where
  bookmaker_id : Nat
  bookmaker_name : String
  bets : List BetPayload
deriving Repr, DecidableEq

/-- One element of the `/odds` response list: the fixture id it refers to,
the `update` time, and the bookmakers tree. -/
structure OddsEntryPayload where
  fixture_id : Nat
  update_time : Int
  bookmakers : List BookmakerPayload
deriving Repr, DecidableEq

/-- The rows of `fixture_odds` that belong to one fixture. -/
def OddsStore.oddsFor (s : OddsStore) (fid : Nat) : List FixtureOddsRow :=
  s.fixture_odds.filter (fun r => r.fixture_id == fid)

/-! ## ingest_fixtures_data.py : fetch_and_store_odds_for_fixture

The routine commits after the tree delete and after every single row insert
except `OddValue` rows (those are added to the session and swept up by the
next commit, or by the final commit at the end of the routine).  Each
function below returns the reached state together with the list of states
that were committed along the way; a run that raises after `j` commits is
rolled back to the `j`-th committed state. -/

/-- `DELETE FROM fixture_odds WHERE fixture_id = fid`, with the `ondelete
CASCADE` chain through fixture_bookmakers, bets and odd_values
(models.py: every child FK of the tree is declared `ondelete="CASCADE"`). -/
def deleteOddsTree (s : OddsStore) (fid : Nat) : OddsStore :=
  let deadOddsIds := (s.fixture_odds.filter (fun r => r.fixture_id == fid)).map (·.id)
  let deadFbIds := (s.fixture_bookmakers.filter
      (fun r => deadOddsIds.contains r.fixture_odds_id)).map (·.id)
  let deadBetIds := (s.bets.filter
      (fun r => deadFbIds.contains r.fixture_bookmaker_id)).map (·.id)
  { s with
    fixture_odds := s.fixture_odds.filter (fun r => !(r.fixture_id == fid)),
    fixture_bookmakers :=
      s.fixture_bookmakers.filter (fun r => !(deadOddsIds.contains r.fixture_odds_id)),
    bets := s.bets.filter (fun r => !(deadFbIds.contains r.fixture_bookmaker_id)),
    odd_values := s.odd_values.filter (fun r => !(deadBetIds.contains r.bet_id)) }

/-- Add the `values` array of one bet to the session; no commit happens here
(the source only calls `db.add` in this inner loop). -/
def addOddValuesPending (s : OddsStore) (betId : Nat) (vals : List OddValuePayload) :
    OddsStore :=
  vals.foldl
    (fun st v =>
      { st with
        odd_values := st.odd_values ++ [⟨st.next_id, betId, v.value, v.odd⟩],
        next_id := st.next_id + 1 })
    s

/-- Get-or-create of a Bookmaker row (lines 236-255 of
ingest_fixtures_data.py).  Creation commits.  The `except IntegrityError`
re-fetch there only fires under a concurrent duplicate insert, which cannot
happen in this single-run model, so the created row is the reached one. -/
def getOrCreateBookmakerFD (s : OddsStore) (bid : Nat) (bname : String) :
    OddsStore × List OddsStore :=
  if s.bookmakers.any (fun b => b.id == bid) then (s, [])
  else
    let s1 := { s with bookmakers := s.bookmakers ++ [⟨bid, bname⟩] }
    (s1, [s1])

/-- Get-or-create of a BetType row (lines 270-290), same shape as the
bookmaker case. -/
def getOrCreateBetTypeFD (s : OddsStore) (btid : Nat) (btname : String) :
    OddsStore × List OddsStore :=
  if s.bet_types.any (fun b => b.id == btid) then (s, [])
  else
    let s1 := { s with bet_types := s.bet_types ++ [⟨btid, btname⟩] }
    (s1, [s1])

/-- One entry of the `bets` loop: get-or-create the bet type, insert the Bet
row (committed), then add the odd values to the session (pending). -/
def processBetFD (fbId : Nat) (s : OddsStore) (bp : BetPayload) :
    OddsStore × List OddsStore :=
  let r1 := getOrCreateBetTypeFD s bp.bet_type_id bp.bet_type_name
  let betRow : BetRow := ⟨r1.1.next_id, fbId, bp.bet_type_id⟩
  let s2 : OddsStore :=
    { r1.1 with bets := r1.1.bets ++ [betRow], next_id := r1.1.next_id + 1 }
  (addOddValuesPending s2 betRow.id bp.values, r1.2 ++ [s2])

/-- The `bets` loop of one bookmaker. -/
def processBetsFD (fbId : Nat) (s : OddsStore) (bps : List BetPayload) :
    OddsStore × List OddsStore :=
  bps.foldl
    (fun acc bp =>
      let r := processBetFD fbId acc.1 bp
      (r.1, acc.2 ++ r.2))
    (s, [])

/-- One entry of the `bookmakers` loop: get-or-create the bookmaker, insert
the FixtureBookmaker row (committed), then process its bets. -/
def processBookmakerFD (foId : Nat) (s : OddsStore) (bp : BookmakerPayload) :
    OddsStore × List OddsStore :=
  let r1 := getOrCreateBookmakerFD s bp.bookmaker_id bp.bookmaker_name
  let fbRow : FixtureBookmakerRow := ⟨r1.1.next_id, foId, bp.bookmaker_id⟩
  let s2 : OddsStore :=
    { r1.1 with
      fixture_bookmakers := r1.1.fixture_bookmakers ++ [fbRow],
      next_id := r1.1.next_id + 1 }
  let r3 := processBetsFD fbRow.id s2 bp.bets
  (r3.1, r1.2 ++ [s2] ++ r3.2)

/-- The `bookmakers` loop of one odds entry. -/
def processBookmakersFD (foId : Nat) (s : OddsStore) (bps : List BookmakerPayload) :
    OddsStore × List OddsStore :=
  bps.foldl
    (fun acc bp =>
      let r := processBookmakerFD foId acc.1 bp
      (r.1, acc.2 ++ r.2))
    (s, [])

/-- One element of the response list (lines 210-310): entries whose fixture id
does not match are skipped; otherwise the FixtureOdds row is inserted and
committed, then the bookmakers tree is processed. -/
def processOddsEntryFD (fid : Nat) (s : OddsStore) (e : OddsEntryPayload) :
    OddsStore × List OddsStore :=
  if e.fixture_id != fid then (s, [])
  else
    let foRow : FixtureOddsRow := ⟨s.next_id, fid, e.update_time⟩
    let s1 : OddsStore :=
      { s with fixture_odds := s.fixture_odds ++ [foRow], next_id := s.next_id + 1 }
    let r2 := processBookmakersFD foRow.id s1 e.bookmakers
    (r2.1, [s1] ++ r2.2)

/-- The odds-entry loop. -/
def processOddsEntriesFD (fid : Nat) (s : OddsStore) (es : List OddsEntryPayload) :
    OddsStore × List OddsStore :=
  es.foldl
    (fun acc e =>
      let r := processOddsEntryFD fid acc.1 e
      (r.1, acc.2 ++ r.2))
    (s, [])

/-- ingest_fixtures_data.fetch_and_store_odds_for_fixture, given the parsed
response list: an empty response returns with the store untouched (lines
199-201); otherwise the existing tree is deleted and committed (lines
203-207), the new tree is inserted with its per-row commits, and a final
commit (line 313) flushes the last pending odd values.  Returns the final
state and the sequence of committed states. -/
def fetchAndStoreOddsForFixture (s : OddsStore) (fid : Nat)
    (response : List OddsEntryPayload) : OddsStore × List OddsStore :=
  if response.isEmpty then (s, [])
  else
    let s0 := deleteOddsTree s fid
    let r1 := processOddsEntriesFD fid s0 response
    (r1.1, [s0] ++ r1.2 ++ [r1.1])

/-- A run of fetch_and_store_odds_for_fixture that raises an exception after
`j` commits have succeeded: the `except` handlers at lines 316-321 roll the
session back, so the store is left at the `j`-th committed state (`j = 0`
means the failure happened before the first commit and nothing changed).
`failAfter = none` is the run with no exception. -/
def runOddsForFixture (s : OddsStore) (fid : Nat) (response : List OddsEntryPayload)
    (failAfter : Option Nat) : OddsStore :=
  let r := fetchAndStoreOddsForFixture s fid response
  match failAfter with
  | none => r.1
  | some j => (s :: r.2).getD j r.1

/-! ## ingest_fixtures_data.py : fetch_and_store_match_statistics and
fetch_and_store_match_events -/

/-- Row of `match_statistics` (models.MatchStatistics); the JSON blob is kept
opaque as a string. -/
structure MatchStatisticsRow where
  id : Nat
  fixture_id : Nat
  team_id : Nat
  statistics : String
deriving Repr, DecidableEq

/-- One element of the `/fixtures/statistics` response. -/
structure StatsEntryPayload where
  team_id : Nat
  statistics : String
deriving Repr, DecidableEq

/-- Row of `match_events` (models.MatchEvent). -/
structure MatchEventRow where
  id : Nat
  fixture_id : Nat
  minute : Int
  team_id : Nat
  player_id : Option Nat
  player_name : Option String
  type : String
  detail : String
  comments : Option String
deriving Repr, DecidableEq

/-- One element of the `/fixtures/events` response. -/
structure EventEntryPayload where
  minute : Int
  team_id : Nat
  player_id : Option Nat
  player_name : Option String
  type : String
  detail : String
  comments : Option String
deriving Repr, DecidableEq

/-- fetch_and_store_match_statistics (lines 345-371): an empty response
returns with the rows untouched; otherwise the fixture's rows are deleted and
committed, then the new rows are added and committed in one batch.  Returns
(final rows, next id) and the committed states (as row lists). -/
def fetchAndStoreMatchStatistics (rows : List MatchStatisticsRow) (nextId : Nat)
    (fid : Nat) (response : List StatsEntryPayload) :
    (List MatchStatisticsRow × Nat) × List (List MatchStatisticsRow) :=
  if response.isEmpty then ((rows, nextId), [])
  else
    let afterDelete := rows.filter (fun r => !(r.fixture_id == fid))
    let inserted := afterDelete ++
      (response.enum.map (fun p => ⟨nextId + p.1, fid, p.2.team_id, p.2.statistics⟩))
    ((inserted, nextId + response.length), [afterDelete, inserted])

/-- A run of fetch_and_store_match_statistics raising after `j` commits. -/
def runStatsForFixture (rows : List MatchStatisticsRow) (nextId : Nat) (fid : Nat)
    (response : List StatsEntryPayload) (failAfter : Option Nat) :
    List MatchStatisticsRow :=
  let r := fetchAndStoreMatchStatistics rows nextId fid response
  match failAfter with
  | none => r.1.1
  | some j => (rows :: r.2).getD j r.1.1

/-- fetch_and_store_match_events (lines 399-427): same shape as the match
statistics routine, over the `match_events` table. -/
def fetchAndStoreMatchEvents (rows : List MatchEventRow) (nextId : Nat)
    (fid : Nat) (response : List EventEntryPayload) :
    (List MatchEventRow × Nat) × List (List MatchEventRow) :=
  if response.isEmpty then ((rows, nextId), [])
  else
    let afterDelete := rows.filter (fun r => !(r.fixture_id == fid))
    let inserted := afterDelete ++
      (response.enum.map (fun p =>
        ⟨nextId + p.1, fid, p.2.minute, p.2.team_id, p.2.player_id,
          p.2.player_name, p.2.type, p.2.detail, p.2.comments⟩))
    ((inserted, nextId + response.length), [afterDelete, inserted])

/-- A run of fetch_and_store_match_events raising after `j` commits. -/
def runEventsForFixture (rows : List MatchEventRow) (nextId : Nat) (fid : Nat)
    (response : List EventEntryPayload) (failAfter : Option Nat) :
    List MatchEventRow :=
  let r := fetchAndStoreMatchEvents rows nextId fid response
  match failAfter with
  | none => r.1.1
  | some j => (rows :: r.2).getD j r.1.1

/-! ## ingest_odds.py : fetch_and_store_odds

Unlike the routine in ingest_fixtures_data.py, this router neither checks for
an existing FixtureOdds row nor deletes the previous tree: for every response
entry it adds a fresh `models.FixtureOdds(fixture_id=fixture_id, ...)` and
commits (lines 98-105), although `fixture_odds.fixture_id` is UNIQUE.  The
whole loop sits in one `try` whose handler re-raises as an HTTP 500 (lines
182-184), so an IntegrityError on that insert aborts the entire run.  The
insert is modelled honoring the UNIQUE constraint of the store; `Except Unit`
is the aborted run. -/

/-- Insert a FixtureOdds row, enforcing the UNIQUE constraint on
`fixture_id`: a duplicate raises (IntegrityError at the commit on line 104).
On success the new row id is returned with the store. -/
def insertFixtureOddsUnique (s : OddsStore) (fid : Nat) (ut : Int) :
    Except Unit (OddsStore × Nat) :=
  if s.fixture_odds.any (fun r => r.fixture_id == fid) then .error ()
  else
    .ok
      ({ s with
          fixture_odds := s.fixture_odds ++ [⟨s.next_id, fid, ut⟩],
          next_id := s.next_id + 1 },
        s.next_id)

/-- Get-or-create of a Bookmaker row in ingest_odds.py (lines 113-121:
`db.get` then create; no conflict handling needed in a single run). -/
def getOrCreateBookmakerOI (s : OddsStore) (bid : Nat) (bname : String) : OddsStore :=
  if s.bookmakers.any (fun b => b.id == bid) then s
  else { s with bookmakers := s.bookmakers ++ [⟨bid, bname⟩] }

/-- Get-or-create of a BetType row in ingest_odds.py (lines 137-145). -/
def getOrCreateBetTypeOI (s : OddsStore) (btid : Nat) (btname : String) : OddsStore :=
  if s.bet_types.any (fun b => b.id == btid) then s
  else { s with bet_types := s.bet_types ++ [⟨btid, btname⟩] }

/-- The `bets` loop of ingest_odds.py (lines 132-165): get-or-create the bet
type, insert the Bet row, append the odd values. -/
def processBetOI (fbId : Nat) (s : OddsStore) (bp : BetPayload) : OddsStore :=
  let s1 := getOrCreateBetTypeOI s bp.bet_type_id bp.bet_type_name
  let betRow : BetRow := ⟨s1.next_id, fbId, bp.bet_type_id⟩
  let s2 : OddsStore := { s1 with bets := s1.bets ++ [betRow], next_id := s1.next_id + 1 }
  addOddValuesPending s2 betRow.id bp.values

/-- The `bookmakers` loop of ingest_odds.py (lines 108-165). -/
def processBookmakerOI (foId : Nat) (s : OddsStore) (bp : BookmakerPayload) : OddsStore :=
  let s1 := getOrCreateBookmakerOI s bp.bookmaker_id bp.bookmaker_name
  let fbRow : FixtureBookmakerRow := ⟨s1.next_id, foId, bp.bookmaker_id⟩
  let s2 : OddsStore :=
    { s1 with
      fixture_bookmakers := s1.fixture_bookmakers ++ [fbRow],
      next_id := s1.next_id + 1 }
  bp.bets.foldl (processBetOI fbRow.id) s2

/-- One element of the response list in ingest_odds.py (lines 85-169):
entries for another fixture are skipped; otherwise a FixtureOdds row is
unconditionally inserted (the comment on line 98 reads "Create or update
FixtureOdds", but no update path exists), and a duplicate aborts the run. -/
def processOddsEntryOI (fid : Nat) (s : OddsStore) (e : OddsEntryPayload) :
    Except Unit OddsStore :=
  if e.fixture_id != fid then .ok s
  else
    match insertFixtureOddsUnique s fid e.update_time with
    | .error _ => .error ()
    | .ok (s1, foId) => .ok (e.bookmakers.foldl (processBookmakerOI foId) s1)

/-- ingest_odds.fetch_and_store_odds over a list of fixture ids, where
`source fid` is the parsed response the external API returns for `fid`
(unchanged between runs when the source is unchanged).  Any exception aborts
the whole run (outer handler, lines 182-184). -/
def fetchAndStoreOdds (s : OddsStore) (fids : List Nat)
    (source : Nat → List OddsEntryPayload) : Except Unit OddsStore :=
  fids.foldlM (fun st fid => (source fid).foldlM (processOddsEntryOI fid) st) s

/-! ## ingest_leagues.py : the season upsert (lines 135-190)

For each season of a league flagged current, the routine first executes (but
does not commit) an UPDATE clearing the `current` flag of every season of the
league (lines 137-143), then inserts or updates the season row; the commit on
line 171 or 185 persists the clear together with the upsert, and every error
path rolls both back. -/

/-- Row of `seasons` (models.Season): surrogate `id`, UNIQUE (league_id,
year); dates modelled as epoch days, the coverage JSON kept opaque. -/
structure SeasonRow where
  id : Nat
  league_id : Nat
  year : Int
  start_date : Option Int
  end_date : Option Int
  current : Bool
  coverage : Option String
deriving Repr, DecidableEq

/-- One season object of the `/leagues` response, after date parsing. -/
structure SeasonPayload where
  year : Int
  start_date : Option Int
  end_date : Option Int
  current : Bool
  coverage : Option String
deriving Repr, DecidableEq

/-- The three places the per-season upsert can raise: the clearing UPDATE
(lines 144-147), the insert commit (lines 174-177), the update commit (lines
187-190).  Each handler rolls back and continues with the next season. -/
inductive SeasonUpsertFailure
  | clearFails
  | insertFails
  | updateFails
deriving Repr, DecidableEq

/-- The UPDATE of lines 138-141: every current season of the league is
flipped to `current = False`. -/
def clearCurrentSeasons (rows : List SeasonRow) (leagueId : Nat) : List SeasonRow :=
  rows.map (fun r =>
    if r.league_id == leagueId && r.current then { r with current := false } else r)

/-- The existence query of lines 160-165, by the (league_id, year) natural
key.  It runs on the session, which already sees the uncommitted clear. -/
def findSeason (rows : List SeasonRow) (leagueId : Nat) (year : Int) :
    Option SeasonRow :=
  rows.find? (fun r => r.league_id == leagueId && r.year == year)

/-- The per-season body of fetch_and_store_leagues (lines 135-190): clear the
current flags of the league, look the season up by natural key, then insert
(new row from the payload) or update (current, start_date, end_date,
coverage on the found row).  A failure rolls the whole unit back to `rows`.
Returns the season rows and the autoincrement counter. -/
def upsertCurrentSeason (rows : List SeasonRow) (nextId : Nat) (leagueId : Nat)
    (p : SeasonPayload) (failAt : Option SeasonUpsertFailure) :
    List SeasonRow × Nat :=
  if failAt = some .clearFails then (rows, nextId)
  else
    let cleared := clearCurrentSeasons rows leagueId
    match findSeason cleared leagueId p.year with
    | none =>
        if failAt = some .insertFails then (rows, nextId)
        else
          (cleared ++ [⟨nextId, leagueId, p.year, p.start_date, p.end_date,
            p.current, p.coverage⟩], nextId + 1)
    | some existing =>
        if failAt = some .updateFails then (rows, nextId)
        else
          (cleared.map (fun r =>
            if r.id == existing.id then
              { r with
                current := p.current,
                start_date := p.start_date,
                end_date := p.end_date,
                coverage := p.coverage }
            else r), nextId)

/-- Number of seasons of a league carrying `current = true`. -/
def countCurrent (rows : List SeasonRow) (leagueId : Nat) : Nat :=
  (rows.filter (fun r => r.league_id == leagueId && r.current)).length

/-! ## app/models.py : Team and Fixture rows -/

/-- Row of `teams` (models.Team, lines 81-99).  The model carries no
`league_id` and no `season_year` column: team/season membership lives in
`team_leagues` (models.TeamLeague). -/
structure TeamRow where
  team_id : Nat
  name : String
  code : Option String
  country : Option String
  founded : Option Int
  national : Bool
  logo : Option String
deriving Repr, DecidableEq

/-- The column names of the `Team` declarative model, as declared in
models.py lines 81-99.  Attribute access on the model class for any other
name raises `AttributeError`. -/
def teamModelColumns : List String :=
  ["team_id", "name", "code", "country", "founded", "national", "logo"]

/-- Row of `team_leagues` (models.TeamLeague): UNIQUE (team_id, league_id,
season_year). -/
structure TeamLeagueRow where
  id : Nat
  team_id : Nat
  league_id : Nat
  season_year : Int
deriving Repr, DecidableEq

/-- Row of `fixtures` (models.Fixture): dates modelled as integer
timestamps. -/
structure FixtureRow where
  fixture_id : Nat
  referee : Option String
  timezone : String
  date : Option Int
  timestamp : Int
  venue_id : Option Nat
  status_long : String
  status_short : String
  status_elapsed : Option Int
  status_extra : Option String
  is_final : Bool
  league_id : Nat
  season_year : Int
  round : Option String
  home_team_id : Nat
  away_team_id : Nat
  goals_home : Option Int
  goals_away : Option Int
  score_halftime_home : Option Int
  score_halftime_away : Option Int
  score_fulltime_home : Option Int
  score_fulltime_away : Option Int
  score_extratime_home : Option Int
  score_extratime_away : Option Int
  score_penalty_home : Option Int
  score_penalty_away : Option Int
deriving Repr, DecidableEq

/-! ## ingest_fixtures.py : fetch_and_store_fixtures -/

/-- The terminal statuses of ingest_fixtures.py line 168
(`final_statuses = {"FT", "AET", "PEN", "AWD", "WO"}`), from which
`is_final` is derived. -/
def finalStatuses : List String := ["FT", "AET", "PEN", "AWD", "WO"]

/-- The mutable fields the update path of fetch_and_store_fixtures (lines
222-281) compares and applies: status and the score columns.  (The source
reads `status.short` with `.get`, so it can be absent; the status of a
well-formed record is kept total here, the claims never exercise a missing
status.) -/
structure FixtureUpdatePayload where
  status_short : String
  goals_home : Option Int
  goals_away : Option Int
  score_halftime_home : Option Int
  score_halftime_away : Option Int
  score_fulltime_home : Option Int
  score_fulltime_away : Option Int
  score_extratime_home : Option Int
  score_extratime_away : Option Int
  score_penalty_home : Option Int
  score_penalty_away : Option Int
deriving Repr, DecidableEq

/-- The update path of fetch_and_store_fixtures (lines 222-281): each field
is compared and applied when it differs; `is_final` is recomputed exactly
when `status_short` changed.  The Bool is `fixture_changed` (the commit on
line 280 only happens when it is true; either way the resulting row is the
one given here). -/
def applyFixtureUpdate (f : FixtureRow) (p : FixtureUpdatePayload) :
    FixtureRow × Bool :=
  let c0 := f.status_short != p.status_short
  let f0 := if c0 then
      { f with
        status_short := p.status_short,
        is_final := finalStatuses.contains p.status_short }
    else f
  let c1 := f0.goals_home != p.goals_home
  let f1 := if c1 then { f0 with goals_home := p.goals_home } else f0
  let c2 := f1.goals_away != p.goals_away
  let f2 := if c2 then { f1 with goals_away := p.goals_away } else f1
  let c3 := f2.score_halftime_home != p.score_halftime_home
  let f3 := if c3 then { f2 with score_halftime_home := p.score_halftime_home } else f2
  let c4 := f3.score_halftime_away != p.score_halftime_away
  let f4 := if c4 then { f3 with score_halftime_away := p.score_halftime_away } else f3
  let c5 := f4.score_fulltime_home != p.score_fulltime_home
  let f5 := if c5 then { f4 with score_fulltime_home := p.score_fulltime_home } else f4
  let c6 := f5.score_fulltime_away != p.score_fulltime_away
  let f6 := if c6 then { f5 with score_fulltime_away := p.score_fulltime_away } else f5
  let c7 := f6.score_extratime_home != p.score_extratime_home
  let f7 := if c7 then { f6 with score_extratime_home := p.score_extratime_home } else f6
  let c8 := f7.score_extratime_away != p.score_extratime_away
  let f8 := if c8 then { f7 with score_extratime_away := p.score_extratime_away } else f7
  let c9 := f8.score_penalty_home != p.score_penalty_home
  let f9 := if c9 then { f8 with score_penalty_home := p.score_penalty_home } else f8
  let c10 := f9.score_penalty_away != p.score_penalty_away
  let f10 := if c10 then { f9 with score_penalty_away := p.score_penalty_away } else f9
  (f10, c0 || c1 || c2 || c3 || c4 || c5 || c6 || c7 || c8 || c9 || c10)

/-- The not-found path of fetch_and_store_fixtures (lines 176-221) at its
insert, with the store as it stands when the INSERT runs (under a concurrent
run it can already hold the key the lookup did not see).  A uniqueness
conflict takes the `except IntegrityError` branch of lines 212-221: rollback,
re-fetch by fixture id, log — and processing of this record ends there; the
`else` update path of line 222 is not entered, so none of the record's
fields are applied.  The Bool reports whether a row was inserted
(`fixtures_processed` increments only then). -/
def insertFixtureWithConflictHandling (dbAtInsert : List FixtureRow)
    (row : FixtureRow) : List FixtureRow × Bool :=
  if dbAtInsert.any (fun r => r.fixture_id == row.fixture_id) then
    (dbAtInsert, false)
  else (dbAtInsert ++ [row], true)

/-- One record of the `/fixtures` response, reduced to the fields the
per-record control flow of fetch_and_store_fixtures reads before reaching
the insert/update paths. -/
structure FixtureApiRecord where
  fixture_id : Option Nat
  home_team_id : Option Nat
  away_team_id : Option Nat
  upd : FixtureUpdatePayload
deriving Repr, DecidableEq

/-- How processing one fixture record ends. -/
inductive FixtureRecordOutcome
  | skippedMissingTeamIds
  | skippedTeamNotFound
  | skippedNoFixtureId
  | errorLogged
  | stored
deriving Repr, DecidableEq

/-- Build the FixtureRow the insert path of lines 178-205 constructs, for a
record whose ids are present (plumbing columns the claims never read are
filled with the parsed-record defaults). -/
def buildFixtureRow (fid : Nat) (leagueId : Nat) (seasonYear : Int)
    (homeId awayId : Nat) (p : FixtureUpdatePayload) : FixtureRow :=
  { fixture_id := fid
    referee := none
    timezone := "UTC"
    date := none
    timestamp := 0
    venue_id := none
    status_long := ""
    status_short := p.status_short
    status_elapsed := none
    status_extra := none
    is_final := finalStatuses.contains p.status_short
    league_id := leagueId
    season_year := seasonYear
    round := none
    home_team_id := homeId
    away_team_id := awayId
    goals_home := p.goals_home
    goals_away := p.goals_away
    score_halftime_home := p.score_halftime_home
    score_halftime_away := p.score_halftime_away
    score_fulltime_home := p.score_fulltime_home
    score_fulltime_away := p.score_fulltime_away
    score_extratime_home := p.score_extratime_home
    score_extratime_away := p.score_extratime_away
    score_penalty_home := p.score_penalty_home
    score_penalty_away := p.score_penalty_away }

/-- The per-record body of fetch_and_store_fixtures (lines 88-285), inside
its per-record `try`.  Control flow in source order:

1. missing home or away team id → warning, skip (lines 113-115);
2. the team existence queries (lines 117-130) filter on
   `models.Team.season_year` — constructing that filter expression accesses
   the attribute `season_year` on the `Team` model class, and when the model
   has no such column (see `teamModelColumns`) the access raises
   `AttributeError`, caught by the per-record handler of lines 282-285:
   error logged, rollback, continue with the next record;
3. were the column present: team not found → warning, skip (lines 132-134);
   missing fixture id → warning, skip (lines 160-164); otherwise the
   insert-or-update paths.  (With the real column list this continuation is
   unreachable; the season constraint of the query cannot even be stated on
   `TeamRow`, so the team lookup below is by `team_id` alone.)

The returned store is the fixtures table after the record. -/
def fixtureRecordStep (teamCols : List String) (teams : List TeamRow)
    (db : List FixtureRow) (leagueId : Nat) (seasonYear : Int)
    (rec : FixtureApiRecord) : FixtureRecordOutcome × List FixtureRow :=
  match rec.home_team_id, rec.away_team_id with
  | some homeId, some awayId =>
    if teamCols.contains "season_year" then
      match teams.find? (fun t => t.team_id == homeId),
          teams.find? (fun t => t.team_id == awayId) with
      | some _, some _ =>
        match rec.fixture_id with
        | none => (.skippedNoFixtureId, db)
        | some fid =>
          match db.find? (fun r => r.fixture_id == fid) with
          | none =>
            let r := insertFixtureWithConflictHandling db
              (buildFixtureRow fid leagueId seasonYear homeId awayId rec.upd)
            (.stored, r.1)
          | some existing =>
            (.stored, db.map (fun r =>
              if r.fixture_id == fid then (applyFixtureUpdate r rec.upd).1 else r))
      | _, _ => (.skippedTeamNotFound, db)
    else (.errorLogged, db)
  | _, _ => (.skippedMissingTeamIds, db)

/-- The record loop of fetch_and_store_fixtures: every record is processed
under the per-record handler, so the loop always runs to the end of the
batch. -/
def ingestFixturesBatch (teamCols : List String) (teams : List TeamRow)
    (db : List FixtureRow) (leagueId : Nat) (seasonYear : Int)
    (recs : List FixtureApiRecord) : List FixtureRow :=
  recs.foldl (fun d rec => (fixtureRecordStep teamCols teams d leagueId seasonYear rec).2) db

/-! ## ingest_players.py : fetch_and_store_players -/

/-- Row of `players` (models.Player), bio columns abbreviated to the ones the
ingestion writes from the payload (the remaining bio columns are copied the
same way and carry no logic). -/
structure PlayerRow where
  player_id : Nat
  name : String
  firstname : Option String
  lastname : Option String
  age : Option Int
  injured : Option Bool
  team_id : Nat
  season_year : Int
deriving Repr, DecidableEq

/-- One record of the `/players` response, paired below with whether
persisting it raises (a database error at the commit of line 117). -/
structure PlayerApiRecord where
  player_id : Nat
  name : String
  firstname : Option String
  lastname : Option String
  age : Option Int
  injured : Option Bool
deriving Repr, DecidableEq

/-- The player-record loop of fetch_and_store_players (lines 77-121).  The
loop body has no per-record exception handler: an exception while persisting
one record propagates to the outer handler of lines 136-138, which re-raises
as HTTP 500 — `.error` carries the rows committed before the abort.  The
Bool of each record says whether its insert raises. -/
def ingestPlayersBatch (db : List PlayerRow) (teamId : Nat) (seasonYear : Int)
    (recs : List (PlayerApiRecord × Bool)) : Except (List PlayerRow) (List PlayerRow) :=
  match recs with
  | [] => .ok db
  | (rec, raises) :: rest =>
    match db.find? (fun p => p.player_id == rec.player_id && p.season_year == seasonYear) with
    | some _ => ingestPlayersBatch db teamId seasonYear rest
    | none =>
      if raises then .error db
      else
        ingestPlayersBatch
          (db ++ [⟨rec.player_id, rec.name, rec.firstname, rec.lastname,
            rec.age, rec.injured, teamId, seasonYear⟩])
          teamId seasonYear rest

/-! ## API-key validation at the top of each ingestion entry point

`API_FOOTBALL_KEY = os.getenv(...)` is `None` when unset; `if not
API_FOOTBALL_KEY` is the Python falsy test, true for `None` and for the
empty string. -/

/-- Python's `not API_FOOTBALL_KEY`. -/
def keyIsMissing : Option String → Bool
  | none => true
  | some s => s.isEmpty

/-- How an ingestion endpoint call begins. -/
inductive IngestStartOutcome
  | fatalConfigError
  | noCurrentSeasons
  | proceedsToFetch
deriving Repr, DecidableEq

/-- ingest_leagues.fetch_and_store_leagues (lines 31-34): the key is checked
before anything is fetched or persisted. -/
def leaguesIngestStart (apiKey : Option String) : IngestStartOutcome :=
  if keyIsMissing apiKey then .fatalConfigError else .proceedsToFetch

/-- ingest_odds.fetch_and_store_odds (lines 30-33): key checked first. -/
def oddsIngestStart (apiKey : Option String) : IngestStartOutcome :=
  if keyIsMissing apiKey then .fatalConfigError else .proceedsToFetch

/-- ingest_fixtures.fetch_and_store_fixtures (lines 31-43): key checked
first, then the current seasons are read. -/
def fixturesIngestStart (apiKey : Option String) (seasons : List SeasonRow) :
    IngestStartOutcome :=
  if keyIsMissing apiKey then .fatalConfigError
  else if (seasons.filter (·.current)).isEmpty then .noCurrentSeasons
  else .proceedsToFetch

/-- ingest_fixtures_data.fetch_and_store_fixtures_data (lines 30-33). -/
def fixturesDataIngestStart (apiKey : Option String) : IngestStartOutcome :=
  if keyIsMissing apiKey then .fatalConfigError else .proceedsToFetch

/-- ingest_predictions.fetch_and_store_predictions (lines 26-30). -/
def predictionsIngestStart (apiKey : Option String) : IngestStartOutcome :=
  if keyIsMissing apiKey then .fatalConfigError else .proceedsToFetch

/-- ingest_teams.fetch_and_store_teams (lines 26-40): the current seasons are
read first and an empty result returns early — the key is only validated
after that. -/
def teamsIngestStart (apiKey : Option String) (seasons : List SeasonRow) :
    IngestStartOutcome :=
  if (seasons.filter (·.current)).isEmpty then .noCurrentSeasons
  else if keyIsMissing apiKey then .fatalConfigError
  else .proceedsToFetch

/-- ingest_player_statistics.fetch_and_store_player_statistics (lines 24-36):
same shape as the teams router. -/
def playerStatisticsIngestStart (apiKey : Option String) (seasons : List SeasonRow) :
    IngestStartOutcome :=
  if (seasons.filter (·.current)).isEmpty then .noCurrentSeasons
  else if keyIsMissing apiKey then .fatalConfigError
  else .proceedsToFetch

/-- ingest_players.fetch_and_store_players (lines 21-36): the seasons are
read, then the fetch loop starts with `headers = {x-apisports-key:
API_FOOTBALL_KEY}` — there is no key validation anywhere in this router. -/
def playersIngestStart (apiKey : Option String) (seasons : List SeasonRow) :
    IngestStartOutcome :=
  if (seasons.filter (·.current)).isEmpty then .noCurrentSeasons
  else .proceedsToFetch

/-! ## SQL semantics on nullable integer columns -/

/-- SQL `a > b` on two nullable integer columns: UNKNOWN (treated as not
taken by CASE/WHERE) when either side is NULL. -/
def sqlGt (a b : Option Int) : Bool :=
  match a, b with
  | some x, some y => decide (x > y)
  | _, _ => false

/-- SQL `a = b` on two nullable integer columns. -/
def sqlEqInt (a b : Option Int) : Bool :=
  match a, b with
  | some x, some y => decide (x = y)
  | _, _ => false

/-- SQL `SUM` over a nullable integer expression: NULL inputs are ignored,
and the sum of no non-NULL inputs is NULL. -/
def sqlSum (l : List (Option Int)) : Option Int :=
  let xs := l.filterMap id
  if xs.isEmpty then none else some (xs.foldl (· + ·) 0)

/-- SQL arithmetic on nullable values: NULL propagates. -/
def optAdd (a b : Option Int) : Option Int :=
  match a, b with
  | some x, some y => some (x + y)
  | _, _ => none

/-- SQL subtraction on nullable values. -/
def optSub (a b : Option Int) : Option Int :=
  match a, b with
  | some x, some y => some (x - y)
  | _, _ => none

/-- SQL multiplication of a nullable value by a constant. -/
def optMul (a : Option Int) (k : Int) : Option Int :=
  match a with
  | some x => some (x * k)
  | none => none

/-- PostgreSQL `ORDER BY expr DESC` places NULLs first; this is the weak
"sorts at or before" relation of one DESC key. -/
def optDescLt (a b : Option Int) : Bool :=
  match a, b with
  | none, some _ => true
  | none, none => false
  | some _, none => false
  | some x, some y => decide (x > y)

/-! ## A generic insertion sort (the model of SQL ORDER BY; SQL fixes only
the key order, our model realizes it with a stable sort) -/

/-- Insert an element in front of the first list element it sorts
at-or-before. -/
def insertSorted (le : α → α → Bool) (x : α) : List α → List α
  | [] => [x]
  | y :: ys => if le x y then x :: y :: ys else y :: insertSorted le x ys

/-- Stable insertion sort by a boolean total preorder. -/
def insertionSort (le : α → α → Bool) : List α → List α
  | [] => []
  | x :: xs => insertSorted le x (insertionSort le xs)

/-! ## retrieval/standings.py : get_league_standings -/

/-- The Champions/Europa league round restriction of lines 38-39:
`Fixture.round ILIKE 'League Stage%'` (case-insensitive prefix; NULL round
is UNKNOWN). -/
def leagueStageCond (leagueId : Nat) (f : FixtureRow) : Bool :=
  if leagueId == 2 || leagueId == 3 then
    match f.round with
    | some r => r.toLower.startsWith "league stage"
    | none => false
  else true

/-- The fixture conditions of lines 29-39: league, season, and
`status_short == 'FT'` — only the full-time status, not the other terminal
statuses. -/
def standingsFixtureCond (leagueId : Nat) (seasonYear : Int) (f : FixtureRow) : Bool :=
  f.league_id == leagueId && f.season_year == seasonYear &&
    f.status_short == "FT" && leagueStageCond leagueId f

/-- The group of the stats subquery for one team: the fixtures joined on
`home_team_id == team OR away_team_id == team` that pass the WHERE
conditions. -/
def teamFixtures (leagueId : Nat) (seasonYear : Int) (fixtures : List FixtureRow)
    (teamId : Nat) : List FixtureRow :=
  fixtures.filter (fun f =>
    (f.home_team_id == teamId || f.away_team_id == teamId) &&
      standingsFixtureCond leagueId seasonYear f)

/-- The wins CASE of lines 46-64. -/
def winCase (teamId : Nat) (f : FixtureRow) : Int :=
  if f.home_team_id == teamId && sqlGt f.goals_home f.goals_away then 1
  else if f.away_team_id == teamId && sqlGt f.goals_away f.goals_home then 1
  else 0

/-- The draws CASE of lines 65-79. -/
def drawCase (teamId : Nat) (f : FixtureRow) : Int :=
  if sqlEqInt f.goals_home f.goals_away &&
      (f.home_team_id == teamId || f.away_team_id == teamId) then 1
  else 0

/-- The losses CASE of lines 80-98. -/
def lossCase (teamId : Nat) (f : FixtureRow) : Int :=
  if f.home_team_id == teamId && sqlGt f.goals_away f.goals_home then 1
  else if f.away_team_id == teamId && sqlGt f.goals_home f.goals_away then 1
  else 0

/-- The goals-for CASE of lines 99-111: the (nullable) goal column of the
team's side. -/
def goalsForCase (teamId : Nat) (f : FixtureRow) : Option Int :=
  if f.home_team_id == teamId then f.goals_home
  else if f.away_team_id == teamId then f.goals_away
  else some 0

/-- The goals-against CASE of lines 112-124. -/
def goalsAgainstCase (teamId : Nat) (f : FixtureRow) : Option Int :=
  if f.home_team_id == teamId then f.goals_away
  else if f.away_team_id == teamId then f.goals_home
  else some 0

/-- One row of the team_stats subquery plus the computed points and goal
difference columns of lines 140-141 (all SQL-nullable). -/
structure StandingsQueryRow where
  team_id : Nat
  matches_played : Int
  wins : Option Int
  draws : Option Int
  losses : Option Int
  goals_for : Option Int
  goals_against : Option Int
  points : Option Int
  goal_difference : Option Int
deriving Repr, DecidableEq

/-- The team_stats subquery row for one team: `none` when the inner join
yields no fixture for the team (the team then has no standings row).
`matches_played` is `COUNT(fixture_id) FILTER (status_short = 'FT')`. -/
def teamStats (leagueId : Nat) (seasonYear : Int) (fixtures : List FixtureRow)
    (teamId : Nat) : Option StandingsQueryRow :=
  let grp := teamFixtures leagueId seasonYear fixtures teamId
  if grp.isEmpty then none
  else
    let wins := sqlSum (grp.map (fun f => some (winCase teamId f)))
    let draws := sqlSum (grp.map (fun f => some (drawCase teamId f)))
    let losses := sqlSum (grp.map (fun f => some (lossCase teamId f)))
    let gf := sqlSum (grp.map (goalsForCase teamId))
    let ga := sqlSum (grp.map (goalsAgainstCase teamId))
    some
      { team_id := teamId
        matches_played := (grp.filter (fun f => f.status_short == "FT")).length
        wins := wins
        draws := draws
        losses := losses
        goals_for := gf
        goals_against := ga
        points := optAdd (optMul wins 3) draws
        goal_difference := optSub gf ga }

/-- The read-side store the standings query runs over. -/
structure StandingsDB where
  teams : List TeamRow
  team_leagues : List TeamLeagueRow
  fixtures : List FixtureRow
deriving Repr, DecidableEq

/-- The main standings query of lines 144-167 before ORDER BY: Team joined
with the stats subquery and with TeamLeague filtered on (league, season); a
team contributes one row per matching TeamLeague row (UNIQUE makes that at
most one on a well-formed store). -/
def standingsQueryRows (leagueId : Nat) (seasonYear : Int) (db : StandingsDB) :
    List StandingsQueryRow :=
  db.teams.flatMap (fun t =>
    match teamStats leagueId seasonYear db.fixtures t.team_id with
    | none => []
    | some st =>
      (db.team_leagues.filter (fun tl =>
        tl.team_id == t.team_id && tl.league_id == leagueId &&
          tl.season_year == seasonYear)).map (fun _ => st))

/-- The ORDER BY of lines 162-166: points DESC, goal_difference DESC,
goals_for DESC (weak: true also on full key ties). -/
def standingsOrder (a b : StandingsQueryRow) : Bool :=
  optDescLt a.points b.points ||
    (a.points == b.points &&
      (optDescLt a.goal_difference b.goal_difference ||
        (a.goal_difference == b.goal_difference &&
          (optDescLt a.goals_for b.goals_for || a.goals_for == b.goals_for))))

/-- One element of the response list (schemas.TeamStanding), after the
`row or 0` coalescing of lines 179-186. -/
structure TeamStanding where
  rank : Nat
  team_id : Nat
  matches_played : Int
  points : Int
  wins : Int
  draws : Int
  losses : Int
  goals_for : Int
  goals_against : Int
  goal_difference : Int
deriving Repr, DecidableEq

/-- Python's `value or 0` on a nullable integer column (None ↦ 0, and 0 ↦ 0
either way). -/
def pyOrZero (a : Option Int) : Int := a.getD 0

/-- One loop body of lines 177-206: the response row of one result row, with
the `or 0` coalescing and the running rank. -/
def standingOfRow (rank : Nat) (r : StandingsQueryRow) : TeamStanding :=
  { rank := rank
    team_id := r.team_id
    matches_played := r.matches_played
    points := pyOrZero r.points
    wins := pyOrZero r.wins
    draws := pyOrZero r.draws
    losses := pyOrZero r.losses
    goals_for := pyOrZero r.goals_for
    goals_against := pyOrZero r.goals_against
    goal_difference := pyOrZero r.goal_difference }

/-- The rank loop of lines 175-206: ranks are assigned 1, 2, 3, … in result
order. -/
def rankLoop (rank : Nat) : List StandingsQueryRow → List TeamStanding
  | [] => []
  | r :: rs => standingOfRow rank r :: rankLoop (rank + 1) rs

/-- retrieval/standings.get_league_standings as a pure function of the
store. -/
def getLeagueStandings (leagueId : Nat) (seasonYear : Int) (db : StandingsDB) :
    List TeamStanding :=
  rankLoop 1 (insertionSort standingsOrder (standingsQueryRows leagueId seasonYear db))

/-! ## retrieval/fixtures.py : get_team_recent_form, and
retrieval/head_to_head.py -/

/-- The WHERE of get_team_recent_form (lines 304-309): the team on either
side, and `status_short == 'FT'` only. -/
def recentFormCond (teamId : Nat) (f : FixtureRow) : Bool :=
  (f.home_team_id == teamId || f.away_team_id == teamId) && f.status_short == "FT"

/-- `ORDER BY date DESC` on fixtures (nullable date, NULLs first as a DESC
key; ties in any order — the stable sort keeps store order). -/
def fixtureDateDesc (a b : FixtureRow) : Bool :=
  optDescLt a.date b.date || a.date == b.date

/-- One element of the recent-form response (schemas.TeamRecentForm reduced
to the fields computed from the fixture row itself; the opponent columns join
through the team relationship and carry no selection logic). -/
structure RecentFormEntry where
  fixture_id : Nat
  home_or_away : String
  goals_for : Option Int
  goals_against : Option Int
  outcome : String
deriving Repr, DecidableEq

/-- The W/D/L annotation of lines 320-341 from the team's perspective.  (The
source compares the raw Python values; on NULL goals that comparison would
raise — terminal fixtures carry their goals, and the claims only use such
fixtures.) -/
def recentFormEntry (teamId : Nat) (f : FixtureRow) : RecentFormEntry :=
  let gfor := if f.home_team_id == teamId then f.goals_home else f.goals_away
  let gagainst := if f.home_team_id == teamId then f.goals_away else f.goals_home
  { fixture_id := f.fixture_id
    home_or_away := if f.home_team_id == teamId then "Home" else "Away"
    goals_for := gfor
    goals_against := gagainst
    outcome :=
      if sqlGt gfor gagainst then "W"
      else if sqlGt gagainst gfor then "L"
      else "D" }

/-- retrieval/fixtures.get_team_recent_form (lines 303-357): filter to the
team's full-time fixtures, order by date descending, take `limit`, annotate. -/
def getTeamRecentForm (teamId : Nat) (lim : Nat) (fixtures : List FixtureRow) :
    List RecentFormEntry :=
  ((insertionSort fixtureDateDesc (fixtures.filter (recentFormCond teamId))).take lim).map
    (recentFormEntry teamId)

/-- The WHERE of head_to_head.get_head_to_head_fixtures (lines 30-36): the
two teams in either orientation, and `status_short == 'FT'` only. -/
def headToHeadCond (team1 team2 : Nat) (f : FixtureRow) : Bool :=
  ((f.home_team_id == team1 && f.away_team_id == team2) ||
      (f.home_team_id == team2 && f.away_team_id == team1)) &&
    f.status_short == "FT"

/-- head_to_head.get_head_to_head_fixtures: filter, order by date
descending, take `limit`. -/
def getHeadToHeadFixtures (team1 team2 : Nat) (lim : Nat)
    (fixtures : List FixtureRow) : List FixtureRow :=
  (insertionSort fixtureDateDesc (fixtures.filter (headToHeadCond team1 team2))).take lim

/-- The spec's terminal-status set (§3, §8 of the spec; identical to the
`final_statuses` literal of ingest_fixtures.py line 168). -/
def isTerminalStatus (s : String) : Bool := finalStatuses.contains s

/-- The spec's ordering of standings rows on the coalesced response values:
points descending, then goal difference, then goals for. -/
def standingFinalOrder (a b : TeamStanding) : Prop :=
  a.points > b.points ∨
    (a.points = b.points ∧
      (a.goal_difference > b.goal_difference ∨
        (a.goal_difference = b.goal_difference ∧ a.goals_for ≥ b.goals_for)))

/-! ## Concrete inputs used to instantiate the theorems below -/

/-- A store holding a depth-4 odds tree for fixture 1. -/
def oddsTreeStoreOld : OddsStore :=
  { fixture_odds := [⟨10, 1, 0⟩]
    fixture_bookmakers := [⟨11, 10, 6⟩]
    bets := [⟨12, 11, 1⟩]
    odd_values := [⟨13, 12, "Home", "1.50"⟩]
    bookmakers := [⟨6, "Bwin"⟩]
    bet_types := [⟨1, "Match Winner"⟩]
    next_id := 14 }

/-- A fresh odds snapshot for fixture 1. -/
def oddsPayloadNew : List OddsEntryPayload :=
  [⟨1, 5, [⟨6, "Bwin", [⟨1, "Match Winner", [⟨"Home", "1.40"⟩]⟩]⟩]⟩]

/-- A store with no odds data yet. -/
def emptyOddsStore : OddsStore := ⟨[], [], [], [], [], [], 1⟩

/-- An unchanged external source: the same odds response for fixture 100 on
every run. -/
def oddsSourceFixed : Nat → List OddsEntryPayload := fun fid =>
  if fid == 100 then [⟨100, 7, [⟨6, "Bwin", [⟨1, "Match Winner", [⟨"Home", "1.50"⟩]⟩]⟩]⟩]
  else []

/-- The store produced by the first ingest_odds run over `oddsSourceFixed`. -/
def oddsAfterFirstRun : OddsStore :=
  (fetchAndStoreOdds emptyOddsStore [100] oddsSourceFixed).toOption.getD emptyOddsStore

/-- Two seasons of league 39, the older one still flagged current. -/
def seasonRowsSample : List SeasonRow :=
  [⟨1, 39, 2023, none, none, true, none⟩, ⟨2, 39, 2024, none, none, false, none⟩]

/-- The 2024 season payload, flagged current. -/
def seasonPayload2024 : SeasonPayload := ⟨2024, none, none, true, none⟩

/-- A current season row of league 39. -/
def sampleCurrentSeason : SeasonRow := ⟨1, 39, 2024, none, none, true, none⟩

/-- An update payload with no score data (a not-yet-started fixture). -/
def emptyScoresPayload : FixtureUpdatePayload :=
  ⟨"NS", none, none, none, none, none, none, none, none, none, none⟩

/-- The persisted fixture 7, not started, no goals (the row a concurrent run
inserted first). -/
def staleFixtureRow : FixtureRow := buildFixtureRow 7 39 2024 1 2 emptyScoresPayload

/-- The current record for fixture 7: full-time, 2-0. -/
def freshFixturePayload : FixtureUpdatePayload :=
  ⟨"FT", some 2, some 0, some 1, some 0, some 2, some 0, none, none, none, none⟩

/-- The row the insert path builds from `freshFixturePayload`. -/
def freshFixtureRow : FixtureRow := buildFixtureRow 7 39 2024 1 2 freshFixturePayload

/-- Three player records; the middle one will be the one whose persistence
raises. -/
def playerRecA : PlayerApiRecord := ⟨10, "Alice", none, none, some 25, none⟩

/-- Second sample player record. -/
def playerRecB : PlayerApiRecord := ⟨11, "Bob", none, none, none, none⟩

/-- Third sample player record. -/
def playerRecC : PlayerApiRecord := ⟨12, "Carl", none, none, none, none⟩

/-- A fixture record whose team ids reference no persisted Team row. -/
def orphanFixtureRecord : FixtureApiRecord :=
  ⟨some 900, some 55, some 66, emptyScoresPayload⟩

/-- A concluded-after-extra-time fixture of league 39, season 2024. -/
def aetFixture : FixtureRow :=
  buildFixtureRow 500 39 2024 1 2
    ⟨"AET", some 2, some 1, some 0, some 0, some 1, some 1, some 2, some 1, none, none⟩

/-- Team row for the standings scenario. -/
def mkScenarioTeam (i : Nat) (n : String) : TeamRow := ⟨i, n, none, none, none, false, none⟩

/-- A full-time fixture of league 39, season 2024 with the given goals. -/
def mkScenarioFixture (fid : Nat) (home away : Nat) (gh ga : Int) : FixtureRow :=
  buildFixtureRow fid 39 2024 home away
    ⟨"FT", some gh, some ga, none, none, some gh, some ga, none, none, none, none⟩

/-- The three-fixture scenario of spec §8: A (team 1) beats B (team 2) 2-0,
B draws C (team 3) 1-1, A beats C 3-1. -/
def standingsScenarioDB : StandingsDB :=
  { teams := [mkScenarioTeam 1 "A", mkScenarioTeam 2 "B", mkScenarioTeam 3 "C"]
    team_leagues := [⟨1, 1, 39, 2024⟩, ⟨2, 2, 39, 2024⟩, ⟨3, 3, 39, 2024⟩]
    fixtures :=
      [ mkScenarioFixture 101 1 2 2 0
      , mkScenarioFixture 102 2 3 1 1
      , mkScenarioFixture 103 1 3 3 1 ] }

/-- A store whose only fixture between teams 1 and 2 concluded after extra
time. -/
def aetOnlyDB : StandingsDB :=
  { teams := [mkScenarioTeam 1 "A", mkScenarioTeam 2 "B"]
    team_leagues := [⟨1, 1, 39, 2024⟩, ⟨2, 2, 39, 2024⟩]
    fixtures := [aetFixture] }

/-! # Theorems -/

/-- C10: for every fixture already holding persisted replaceable-tree rows
(odds, match statistics, or match events), a re-ingestion fetch returning an
empty response list leaves the existing tree rows completely unchanged: the
delete step runs only when the fetched snapshot is non-empty. -/
theorem empty_response_leaves_trees_unchanged :
    ∀ (s : OddsStore) (srows : List MatchStatisticsRow) (erows : List MatchEventRow)
      (nextId fid : Nat) (failAfter : Option Nat),
      runOddsForFixture s fid [] failAfter = s ∧
      runStatsForFixture srows nextId fid [] failAfter = srows ∧
      runEventsForFixture erows nextId fid [] failAfter = erows := by
  intro s srows erows nextId fid failAfter
  refine ⟨?_, ?_, ?_⟩ <;>
    · cases failAfter with
      | none => rfl
      | some j => cases j <;>
          simp [runOddsForFixture, runStatsForFixture, runEventsForFixture,
            fetchAndStoreOddsForFixture, fetchAndStoreMatchStatistics,
            fetchAndStoreMatchEvents, List.getD]

/-- C2 (counterexample): for a fixture with a persisted odds tree and a
non-empty new snapshot, the run that raises right after the delete commit
leaves the fixture with zero odds rows although old ones existed — the
delete-then-insert is not one atomic unit. -/
theorem odds_replace_can_drop_entire_tree :
    (oddsTreeStoreOld.oddsFor 1).length = 1 ∧
    (runOddsForFixture oddsTreeStoreOld 1 oddsPayloadNew (some 1)).oddsFor 1 = [] := by
  constructor <;> rfl

/-- C1 (evaluation at the failing input): over an unchanged external source,
the first ingest_odds run inserts one FixtureOdds row for fixture 100, and
the second run — no existence check, no delete, despite the "Create or
update" comment — attempts the duplicate insert, hits the UNIQUE constraint
on `fixture_id`, and aborts the whole run. -/
theorem odds_reingestion_attempts_duplicate_insert :
    fetchAndStoreOdds emptyOddsStore [100] oddsSourceFixed = .ok oddsAfterFirstRun ∧
    (oddsAfterFirstRun.oddsFor 100).length = 1 ∧
    fetchAndStoreOdds oddsAfterFirstRun [100] oddsSourceFixed = .error () := by
  refine ⟨rfl, rfl, rfl⟩

/-- C9 (counterexample): the players ingestion entry point performs no API
key validation: with the key absent and a current season present it proceeds
to the fetch loop instead of failing as a fatal configuration error. -/
theorem players_ingestion_proceeds_without_key :
    playersIngestStart none [sampleCurrentSeason] = .proceedsToFetch ∧
    IngestStartOutcome.proceedsToFetch ≠ IngestStartOutcome.fatalConfigError := by
  refine ⟨rfl, by decide⟩

/-- C9 (amended): the leagues, odds, fixtures, fixtures-data and predictions
entry points fail as a fatal configuration error before fetching when the
key is absent; teams and player statistics do so only after finding a
current season (with none they return early without the check); players
never checks the key. -/
theorem api_key_check_per_entry_point (apiKey : Option String)
    (seasons : List SeasonRow) (hk : keyIsMissing apiKey = true) :
    leaguesIngestStart apiKey = .fatalConfigError ∧
    oddsIngestStart apiKey = .fatalConfigError ∧
    fixturesIngestStart apiKey seasons = .fatalConfigError ∧
    fixturesDataIngestStart apiKey = .fatalConfigError ∧
    predictionsIngestStart apiKey = .fatalConfigError ∧
    ((seasons.filter (·.current)).isEmpty = false →
      teamsIngestStart apiKey seasons = .fatalConfigError ∧
      playerStatisticsIngestStart apiKey seasons = .fatalConfigError) ∧
    ((seasons.filter (·.current)).isEmpty = true →
      teamsIngestStart apiKey seasons = .noCurrentSeasons ∧
      playerStatisticsIngestStart apiKey seasons = .noCurrentSeasons) ∧
    playersIngestStart apiKey seasons ≠ .fatalConfigError := by
  unfold leaguesIngestStart oddsIngestStart fixturesIngestStart
    fixturesDataIngestStart predictionsIngestStart teamsIngestStart
    playerStatisticsIngestStart playersIngestStart
  rw [hk]
  refine ⟨rfl, rfl, rfl, rfl, rfl, ?_, ?_, ?_⟩
  · intro h; rw [h]; exact ⟨rfl, rfl⟩
  · intro h; rw [h]; exact ⟨rfl, rfl⟩
  · cases h : (seasons.filter (·.current)).isEmpty <;> simp

/-- Witness for the C9 theorem at the absent key and one current season. -/
theorem api_key_check_per_entry_point_witness :
    leaguesIngestStart none = .fatalConfigError ∧
    teamsIngestStart none [sampleCurrentSeason] = .fatalConfigError ∧
    playersIngestStart none [sampleCurrentSeason] ≠ .fatalConfigError := by
  have h := api_key_check_per_entry_point none [sampleCurrentSeason] rfl
  exact ⟨h.1, (h.2.2.2.2.2.1 (by decide)).1, h.2.2.2.2.2.2.2⟩

/-- C8 (evaluation at the failing input): ingesting a fixture record whose
teams have no Team rows ends in the per-record exception handler — the
existence query filters on `Team.season_year`, a column the Team model does
not declare, so an AttributeError is raised and logged as an error; zero
Fixture rows are created, but the outcome is not the intended
team-not-found warning skip (which is unreachable). -/
theorem fixture_team_check_raises_attribute_error :
    fixtureRecordStep teamModelColumns [] [] 39 2024 orphanFixtureRecord =
      (.errorLogged, []) ∧
    teamModelColumns.contains "season_year" = false ∧
    FixtureRecordOutcome.errorLogged ≠ FixtureRecordOutcome.skippedTeamNotFound := by
  refine ⟨rfl, by decide, by decide⟩

/-- C7 (counterexample): in the players ingestion batch [good, bad, good]
the middle record's persistence failure aborts the whole batch: the first
record's row is committed, the third record is never processed, and the
exception surfaces to the caller (HTTP 500) instead of being caught and
counted. -/
theorem players_batch_aborted_by_single_record :
    ingestPlayersBatch [] 5 2024
        [(playerRecA, false), (playerRecB, true), (playerRecC, false)] =
      .error [⟨10, "Alice", none, none, some 25, none, 5, 2024⟩] := by
  rfl

/-- The update path of fetch_and_store_fixtures ends with every mutable field
of the row carrying the record's value (a differing field is assigned, an
equal one already agrees). -/
lemma applyFixtureUpdate_sets_fields (f : FixtureRow) (p : FixtureUpdatePayload) :
    ((applyFixtureUpdate f p).1).status_short = p.status_short ∧
    ((applyFixtureUpdate f p).1).goals_home = p.goals_home ∧
    ((applyFixtureUpdate f p).1).goals_away = p.goals_away ∧
    ((applyFixtureUpdate f p).1).score_halftime_home = p.score_halftime_home ∧
    ((applyFixtureUpdate f p).1).score_halftime_away = p.score_halftime_away ∧
    ((applyFixtureUpdate f p).1).score_fulltime_home = p.score_fulltime_home ∧
    ((applyFixtureUpdate f p).1).score_fulltime_away = p.score_fulltime_away ∧
    ((applyFixtureUpdate f p).1).score_extratime_home = p.score_extratime_home ∧
    ((applyFixtureUpdate f p).1).score_extratime_away = p.score_extratime_away ∧
    ((applyFixtureUpdate f p).1).score_penalty_home = p.score_penalty_home ∧
    ((applyFixtureUpdate f p).1).score_penalty_away = p.score_penalty_away := by
  simp only [applyFixtureUpdate]
  refine ⟨?_, ?_, ?_, ?_, ?_, ?_, ?_, ?_, ?_, ?_, ?_⟩ <;>
    · simp only [apply_ite FixtureRow.status_short, apply_ite FixtureRow.goals_home,
        apply_ite FixtureRow.goals_away, apply_ite FixtureRow.score_halftime_home,
        apply_ite FixtureRow.score_halftime_away, apply_ite FixtureRow.score_fulltime_home,
        apply_ite FixtureRow.score_fulltime_away, apply_ite FixtureRow.score_extratime_home,
        apply_ite FixtureRow.score_extratime_away, apply_ite FixtureRow.score_penalty_home,
        apply_ite FixtureRow.score_penalty_away, ite_self]
      split
      · rfl
      · next h => simp only [bne_iff_ne, ne_eq, not_not] at h; exact h

/-- C6 (counterexample): fixture 7 was inserted by a concurrent run with no
goals; re-processing the record (now full-time, 2-0) hits the uniqueness
conflict, and the engine leaves the persisted row exactly as fetched — the
record's differing fields are not applied, contradicting the claimed
fall-through to the update path. -/
theorem fixture_conflict_fields_not_persisted :
    insertFixtureWithConflictHandling [staleFixtureRow] freshFixtureRow =
      ([staleFixtureRow], false) ∧
    staleFixtureRow.status_short ≠ freshFixturePayload.status_short ∧
    staleFixtureRow.goals_home ≠ freshFixturePayload.goals_home := by
  refine ⟨rfl, by decide, by decide⟩

/-- C6 (amended): a uniqueness conflict on insert is treated as not an
error — rollback, re-fetch by natural key, log — but the engine does not
fall through to the update path: the store is returned unchanged and the
record's fields are not persisted in that run.  They are applied only when a
later run's lookup finds the row and takes the update path, which does set
every mutable field to the record's value. -/
theorem fixture_conflict_refetch_without_update (db : List FixtureRow)
    (row : FixtureRow)
    (h : db.any (fun r => r.fixture_id == row.fixture_id) = true) :
    insertFixtureWithConflictHandling db row = (db, false) ∧
    ∀ (f : FixtureRow) (p : FixtureUpdatePayload),
      ((applyFixtureUpdate f p).1).status_short = p.status_short ∧
      ((applyFixtureUpdate f p).1).goals_home = p.goals_home ∧
      ((applyFixtureUpdate f p).1).goals_away = p.goals_away := by
  refine ⟨by simp [insertFixtureWithConflictHandling, h], fun f p => ?_⟩
  have hf := applyFixtureUpdate_sets_fields f p
  exact ⟨hf.1, hf.2.1, hf.2.2.1⟩

/-- Witness for the C6 theorem at the concrete conflicting record. -/
theorem fixture_conflict_refetch_without_update_witness :
    insertFixtureWithConflictHandling [staleFixtureRow] freshFixtureRow =
      ([staleFixtureRow], false) ∧
    ((applyFixtureUpdate staleFixtureRow freshFixturePayload).1).goals_home =
      freshFixturePayload.goals_home := by
  have h := fixture_conflict_refetch_without_update [staleFixtureRow] freshFixtureRow
    (by decide)
  exact ⟨h.1, (h.2 staleFixtureRow freshFixturePayload).2.1⟩

/-- C7 (amended): the fixtures ingestion loop isolates per-record failures —
a record whose processing ends in the per-record handler leaves the store
untouched and the batch continues (no failure counter is maintained) — but
the players ingestion loop has no per-record handler: a record whose
persistence raises aborts the whole batch with the committed prefix. -/
theorem per_record_isolation_fixtures_only :
    (∀ (teams : List TeamRow) (db : List FixtureRow) (leagueId : Nat)
        (seasonYear : Int) (rec : FixtureApiRecord) (rest : List FixtureApiRecord),
        (fixtureRecordStep teamModelColumns teams db leagueId seasonYear rec).1 =
            .errorLogged →
        ingestFixturesBatch teamModelColumns teams db leagueId seasonYear (rec :: rest) =
          ingestFixturesBatch teamModelColumns teams db leagueId seasonYear rest) ∧
    (∀ (db : List PlayerRow) (teamId : Nat) (seasonYear : Int)
        (rec : PlayerApiRecord) (rest : List (PlayerApiRecord × Bool)),
        db.find? (fun q => q.player_id == rec.player_id &&
          q.season_year == seasonYear) = none →
        ingestPlayersBatch db teamId seasonYear ((rec, true) :: rest) = .error db) := by
  constructor
  · intro teams db leagueId seasonYear rec rest h
    have hcols : "season_year" ∉ teamModelColumns := by decide
    have hstep :
        (fixtureRecordStep teamModelColumns teams db leagueId seasonYear rec).2 = db := by
      rcases hh : rec.home_team_id with _ | homeId <;>
        rcases ha : rec.away_team_id with _ | awayId <;>
          simp [fixtureRecordStep, hh, ha, hcols]
    simp [ingestFixturesBatch, hstep]
  · intro db teamId seasonYear rec rest h
    simp [ingestPlayersBatch, h]

/-- Witness for the C7 theorem: an erroring fixture record is skipped while
the batch continues; a raising player record aborts the batch. -/
theorem per_record_isolation_fixtures_only_witness :
    ingestFixturesBatch teamModelColumns [] [] 39 2024 [orphanFixtureRecord] =
      ingestFixturesBatch teamModelColumns [] [] 39 2024 [] ∧
    ingestPlayersBatch [] 5 2024 [(playerRecC, true)] = .error [] := by
  have h := per_record_isolation_fixtures_only
  exact ⟨h.1 [] [] 39 2024 orphanFixtureRecord [] (by decide),
    h.2 [] 5 2024 playerRecC [] rfl⟩

/-- After the clearing UPDATE no season of the league is current. -/
lemma countCurrent_clearCurrentSeasons (rows : List SeasonRow) (L : Nat) :
    countCurrent (clearCurrentSeasons rows L) L = 0 := by
  unfold countCurrent clearCurrentSeasons
  rw [List.length_eq_zero, List.filter_eq_nil_iff]
  intro a ha
  rw [List.mem_map] at ha
  obtain ⟨r, hr, rfl⟩ := ha
  by_cases h : (r.league_id == L && r.current) = true
  · rw [if_pos h]
    simp
  · rw [if_neg h]
    exact h

/-- The clearing UPDATE does not touch primary keys. -/
lemma clearCurrentSeasons_map_id (rows : List SeasonRow) (L : Nat) :
    (clearCurrentSeasons rows L).map (·.id) = rows.map (·.id) := by
  unfold clearCurrentSeasons
  rw [List.map_map]
  apply List.map_congr_left
  intro r hr
  show (if (r.league_id == L && r.current) = true then _ else r).id = r.id
  split <;> rfl

/-- Updating the single row of a given key in a list where the predicate
holds nowhere yields exactly one predicate witness. -/
lemma countP_map_update_eq_one {α β : Type} [DecidableEq β] (key : α → β)
    (upd : α → α) (P : α → Bool) :
    ∀ (l : List α) (e : α), (l.map key).Nodup → e ∈ l →
      (∀ r ∈ l, P r = false) →
      (∀ r ∈ l, key r = key e → P (upd r) = true) →
      (∀ r ∈ l, key r ≠ key e → upd r = r) →
      (l.map upd).countP P = 1 := by
  intro l
  induction l with
  | nil => intro e _ he _ _ _; exact absurd he (List.not_mem_nil e)
  | cons a l ih =>
    intro e hnd he hP0 hPe hfix
    have hnd' : (key a ∉ l.map key) ∧ (l.map key).Nodup := by
      rw [List.map_cons] at hnd
      exact List.nodup_cons.mp hnd
    rw [List.map_cons, List.countP_cons]
    by_cases hka : key a = key e
    · have h1 : P (upd a) = true := hPe a (List.mem_cons_self a l) hka
      have h0 : (l.map upd).countP P = 0 := by
        rw [List.countP_eq_zero]
        intro x hx
        rw [List.mem_map] at hx
        obtain ⟨r, hr, rfl⟩ := hx
        have hne : key r ≠ key e := by
          intro hkey
          exact hnd'.1 (hka ▸ hkey ▸ List.mem_map_of_mem (f := key) hr)
        rw [hfix r (List.mem_cons_of_mem a hr) hne]
        simp [hP0 r (List.mem_cons_of_mem a hr)]
      rw [h0, h1]
      simp
    · have hae : e ∈ l := by
        rcases List.mem_cons.mp he with rfl | h
        · exact absurd rfl hka
        · exact h
      have ha0 : P (upd a) = P a := by
        rw [hfix a (List.mem_cons_self a l) hka]
      rw [ha0, hP0 a (List.mem_cons_self a l)]
      have := ih e hnd'.2 hae
        (fun r hr => hP0 r (List.mem_cons_of_mem a hr))
        (fun r hr hk => hPe r (List.mem_cons_of_mem a hr) hk)
        (fun r hr hk => hfix r (List.mem_cons_of_mem a hr) hk)
      simpa using this

/-- C3: the per-season upsert keeps the single-current-season discipline:
every failing path rolls the clear and the upsert back together (no state
with the flags cleared but the season not upserted is ever committed), and
the committed path leaves the league with exactly one current season — the
upserted one. -/
theorem season_upsert_single_current (rows : List SeasonRow) (nextId : Nat)
    (leagueId : Nat) (p : SeasonPayload) (hcur : p.current = true)
    (hids : (rows.map (·.id)).Nodup) :
    (∀ f, (upsertCurrentSeason rows nextId leagueId p (some f)).1 = rows ∨
        (upsertCurrentSeason rows nextId leagueId p (some f)).1 =
          (upsertCurrentSeason rows nextId leagueId p none).1) ∧
    countCurrent (upsertCurrentSeason rows nextId leagueId p none).1 leagueId = 1 ∧
    (∀ r ∈ (upsertCurrentSeason rows nextId leagueId p none).1,
        r.league_id = leagueId → r.current = true → r.year = p.year) := by
  have hclear0 := countCurrent_clearCurrentSeasons rows leagueId
  have hclearP : ∀ r ∈ clearCurrentSeasons rows leagueId,
      (r.league_id == leagueId && r.current) = false := by
    intro r hr
    have := hclear0
    unfold countCurrent at this
    rw [List.length_eq_zero, List.filter_eq_nil_iff] at this
    simpa using this r hr
  refine ⟨?_, ?_, ?_⟩
  · intro f
    cases f with
    | clearFails => left; rfl
    | insertFails =>
      unfold upsertCurrentSeason
      simp only [reduceCtorEq, Option.some.injEq, if_false]
      cases hf : findSeason (clearCurrentSeasons rows leagueId) leagueId p.year with
      | none => left; simp
      | some e => right; simp
    | updateFails =>
      unfold upsertCurrentSeason
      simp only [reduceCtorEq, Option.some.injEq, if_false]
      cases hf : findSeason (clearCurrentSeasons rows leagueId) leagueId p.year with
      | none => right; simp
      | some e => left; simp
  · unfold upsertCurrentSeason
    simp only [reduceCtorEq, if_false]
    cases hf : findSeason (clearCurrentSeasons rows leagueId) leagueId p.year with
    | none =>
      simp only []
      unfold countCurrent
      rw [List.filter_append, List.length_append]
      have h1 : countCurrent (clearCurrentSeasons rows leagueId) leagueId = 0 := hclear0
      unfold countCurrent at h1
      rw [h1]
      simp [hcur]
    | some e =>
      simp only []
      have hend : (clearCurrentSeasons rows leagueId).map (·.id) = rows.map (·.id) :=
        clearCurrentSeasons_map_id rows leagueId
      have hnd : ((clearCurrentSeasons rows leagueId).map (·.id)).Nodup := by
        rw [hend]; exact hids
      have hmem : e ∈ clearCurrentSeasons rows leagueId := List.mem_of_find?_eq_some hf
      have hpred := List.find?_some hf
      have heL : (e.league_id == leagueId) = true := by
        have := hpred
        simp only [Bool.and_eq_true] at this
        exact this.1
      have heY : e.year = p.year := by
        have := hpred
        simp only [Bool.and_eq_true, beq_iff_eq] at this
        exact this.2
      unfold countCurrent
      rw [← List.countP_eq_length_filter]
      refine countP_map_update_eq_one _ _ _ _ e hnd hmem hclearP ?_ ?_
      · intro r hr hk
        have hre : r = e := List.inj_on_of_nodup_map hnd hr hmem hk
        subst hre
        simp [heL, hcur]
      · intro r hr hk
        simp [hk]
  · unfold upsertCurrentSeason
    simp only [reduceCtorEq, if_false]
    cases hf : findSeason (clearCurrentSeasons rows leagueId) leagueId p.year with
    | none =>
      simp only []
      intro r hr hL hc
      rcases List.mem_append.mp hr with h | h
      · have hP := hclearP r h
        simp [hL, hc] at hP
      · simp only [List.mem_singleton] at h
        subst h
        rfl
    | some e =>
      simp only []
      intro r hr hL hc
      rw [List.mem_map] at hr
      obtain ⟨x, hx, rfl⟩ := hr
      by_cases hk : (x.id == e.id) = true
      · have hend : (clearCurrentSeasons rows leagueId).map (·.id) = rows.map (·.id) :=
          clearCurrentSeasons_map_id rows leagueId
        have hnd : ((clearCurrentSeasons rows leagueId).map (·.id)).Nodup := by
          rw [hend]; exact hids
        have hxe : x = e := List.inj_on_of_nodup_map hnd hx
          (List.mem_of_find?_eq_some hf) (by simpa using hk)
        subst hxe
        have heY : x.year = p.year := by
          have := List.find?_some hf
          simp only [Bool.and_eq_true, beq_iff_eq] at this
          exact this.2
        simp only [hk, if_true] at hL hc ⊢
        simpa using heY
      · simp only [hk] at hL hc
        simp only [Bool.not_eq_true] at hk
        rw [if_neg (by simp [hk])] at hL hc
        have hP := hclearP x hx
        simp [hL, hc] at hP

/-- Witness for the C3 theorem: upserting the current 2024 season over a
store where 2023 is still current leaves league 39 with exactly one current
season. -/
theorem season_upsert_single_current_witness :
    countCurrent (upsertCurrentSeason seasonRowsSample 3 39 seasonPayload2024 none).1 39 = 1 :=
  (season_upsert_single_current seasonRowsSample 3 39 seasonPayload2024 rfl
    (by decide)).2.1

/-- The first component of a log-accumulating fold is a pure fold. -/
lemma foldl_pair_fst {α β γ : Type} (g : α → γ → α × List β) :
    ∀ (l : List γ) (s : α) (logs : List β),
      (l.foldl (fun acc c =>
        ((g acc.1 c).1, acc.2 ++ (g acc.1 c).2)) (s, logs)).1 =
        l.foldl (fun st c => (g st c).1) s := by
  intro l
  induction l with
  | nil => intro s logs; rfl
  | cons c l ih => intro s logs; exact ih _ _

/-- Adding pending odd values touches neither `fixture_odds` nor shrinks the
id counter. -/
lemma addOddValuesPending_spec :
    ∀ (vals : List OddValuePayload) (s : OddsStore) (betId : Nat),
      (addOddValuesPending s betId vals).fixture_odds = s.fixture_odds ∧
        s.next_id ≤ (addOddValuesPending s betId vals).next_id := by
  intro vals
  induction vals with
  | nil => intro s betId; exact ⟨rfl, Nat.le_refl _⟩
  | cons v vs ih =>
    intro s betId
    have h := ih { s with
      odd_values := s.odd_values ++ [⟨s.next_id, betId, v.value, v.odd⟩],
      next_id := s.next_id + 1 } betId
    exact ⟨h.1, Nat.le_trans (Nat.le_succ _) h.2⟩

/-- Bet-type get-or-create leaves `fixture_odds` and the id counter alone. -/
lemma getOrCreateBetTypeFD_spec (s : OddsStore) (btid : Nat) (btname : String) :
    (getOrCreateBetTypeFD s btid btname).1.fixture_odds = s.fixture_odds ∧
      (getOrCreateBetTypeFD s btid btname).1.next_id = s.next_id := by
  unfold getOrCreateBetTypeFD
  split <;> exact ⟨rfl, rfl⟩

/-- Bookmaker get-or-create leaves `fixture_odds` and the id counter alone. -/
lemma getOrCreateBookmakerFD_spec (s : OddsStore) (bid : Nat) (bname : String) :
    (getOrCreateBookmakerFD s bid bname).1.fixture_odds = s.fixture_odds ∧
      (getOrCreateBookmakerFD s bid bname).1.next_id = s.next_id := by
  unfold getOrCreateBookmakerFD
  split <;> exact ⟨rfl, rfl⟩

/-- Processing one bet leaves `fixture_odds` alone and never reuses ids. -/
lemma processBetFD_spec (fbId : Nat) (s : OddsStore) (bp : BetPayload) :
    (processBetFD fbId s bp).1.fixture_odds = s.fixture_odds ∧
      s.next_id ≤ (processBetFD fbId s bp).1.next_id := by
  unfold processBetFD
  have h1 := getOrCreateBetTypeFD_spec s bp.bet_type_id bp.bet_type_name
  have h2 := addOddValuesPending_spec bp.values
    { (getOrCreateBetTypeFD s bp.bet_type_id bp.bet_type_name).1 with
      bets := (getOrCreateBetTypeFD s bp.bet_type_id bp.bet_type_name).1.bets ++
        [⟨(getOrCreateBetTypeFD s bp.bet_type_id bp.bet_type_name).1.next_id, fbId,
          bp.bet_type_id⟩],
      next_id := (getOrCreateBetTypeFD s bp.bet_type_id bp.bet_type_name).1.next_id + 1 }
    (getOrCreateBetTypeFD s bp.bet_type_id bp.bet_type_name).1.next_id
  refine ⟨by rw [h2.1]; exact h1.1, ?_⟩
  refine Nat.le_trans ?_ h2.2
  rw [h1.2] at *
  exact Nat.le_trans (Nat.le_succ _) (by rw [h1.2])

/-- The bets loop of one bookmaker: same invariant, lifted over the fold. -/
lemma processBetsFD_spec (fbId : Nat) (bps : List BetPayload) :
    ∀ s : OddsStore,
      (processBetsFD fbId s bps).1.fixture_odds = s.fixture_odds ∧
        s.next_id ≤ (processBetsFD fbId s bps).1.next_id := by
  intro s
  unfold processBetsFD
  rw [foldl_pair_fst (fun st bp => processBetFD fbId st bp)]
  induction bps generalizing s with
  | nil => exact ⟨rfl, Nat.le_refl _⟩
  | cons bp bps ih =>
    have h1 := processBetFD_spec fbId s bp
    have h2 := ih (processBetFD fbId s bp).1
    exact ⟨by rw [List.foldl_cons, h2.1, h1.1], by
      rw [List.foldl_cons]; exact Nat.le_trans h1.2 h2.2⟩

/-- Processing one bookmaker leaves `fixture_odds` alone and never reuses
ids. -/
lemma processBookmakerFD_spec (foId : Nat) (s : OddsStore) (bp : BookmakerPayload) :
    (processBookmakerFD foId s bp).1.fixture_odds = s.fixture_odds ∧
      s.next_id ≤ (processBookmakerFD foId s bp).1.next_id := by
  unfold processBookmakerFD
  have h1 := getOrCreateBookmakerFD_spec s bp.bookmaker_id bp.bookmaker_name
  have h2 := processBetsFD_spec
    ((getOrCreateBookmakerFD s bp.bookmaker_id bp.bookmaker_name).1.next_id) bp.bets
    { (getOrCreateBookmakerFD s bp.bookmaker_id bp.bookmaker_name).1 with
      fixture_bookmakers :=
        (getOrCreateBookmakerFD s bp.bookmaker_id bp.bookmaker_name).1.fixture_bookmakers ++
          [⟨(getOrCreateBookmakerFD s bp.bookmaker_id bp.bookmaker_name).1.next_id, foId,
            bp.bookmaker_id⟩],
      next_id := (getOrCreateBookmakerFD s bp.bookmaker_id bp.bookmaker_name).1.next_id + 1 }
  refine ⟨by rw [h2.1]; exact h1.1, ?_⟩
  refine Nat.le_trans ?_ h2.2
  exact Nat.le_trans (by rw [h1.2]) (Nat.le_succ _)

/-- The bookmakers loop of one odds entry: same invariant. -/
lemma processBookmakersFD_spec (foId : Nat) (bps : List BookmakerPayload) :
    ∀ s : OddsStore,
      (processBookmakersFD foId s bps).1.fixture_odds = s.fixture_odds ∧
        s.next_id ≤ (processBookmakersFD foId s bps).1.next_id := by
  intro s
  unfold processBookmakersFD
  rw [foldl_pair_fst (fun st bp => processBookmakerFD foId st bp)]
  induction bps generalizing s with
  | nil => exact ⟨rfl, Nat.le_refl _⟩
  | cons bp bps ih =>
    have h1 := processBookmakerFD_spec foId s bp
    have h2 := ih (processBookmakerFD foId s bp).1
    exact ⟨by rw [List.foldl_cons, h2.1, h1.1], by
      rw [List.foldl_cons]; exact Nat.le_trans h1.2 h2.2⟩

/-- The state reached by the odds-entry loop, as a pure fold. -/
def entriesStateFD (fid : Nat) (s : OddsStore) (es : List OddsEntryPayload) : OddsStore :=
  es.foldl (fun st e => (processOddsEntryFD fid st e).1) s

/-- The log-accumulating entry loop and the pure fold reach the same state. -/
lemma processOddsEntriesFD_fst (fid : Nat) (es : List OddsEntryPayload) (s : OddsStore) :
    (processOddsEntriesFD fid s es).1 = entriesStateFD fid s es := by
  unfold processOddsEntriesFD entriesStateFD
  exact foldl_pair_fst (fun st e => processOddsEntryFD fid st e) es s []

/-- One matching entry appends exactly one FixtureOdds row, stamped with the
current id counter; a non-matching entry is a no-op. -/
lemma processOddsEntryFD_state (fid : Nat) (s : OddsStore) (e : OddsEntryPayload) :
    ((e.fixture_id != fid) = true → (processOddsEntryFD fid s e).1 = s) ∧
      ((e.fixture_id != fid) = false →
        (processOddsEntryFD fid s e).1.fixture_odds =
            s.fixture_odds ++ [⟨s.next_id, fid, e.update_time⟩] ∧
          s.next_id ≤ (processOddsEntryFD fid s e).1.next_id) := by
  constructor
  · intro h
    unfold processOddsEntryFD
    rw [if_pos h]
  · intro h
    unfold processOddsEntryFD
    rw [if_neg (by simp [h])]
    have hb := processBookmakersFD_spec s.next_id e.bookmakers
      { s with
        fixture_odds := s.fixture_odds ++ [⟨s.next_id, fid, e.update_time⟩],
        next_id := s.next_id + 1 }
    exact ⟨hb.1, Nat.le_trans (Nat.le_succ _) hb.2⟩

/-- Entry-loop invariant: the number of FixtureOdds rows of the fixture grows
by one per matching entry. -/
lemma entriesStateFD_oddsFor_length (fid : Nat) :
    ∀ (es : List OddsEntryPayload) (s : OddsStore),
      ((entriesStateFD fid s es).oddsFor fid).length =
        (s.oddsFor fid).length + (es.filter (fun e => e.fixture_id == fid)).length := by
  intro es
  induction es with
  | nil => intro s; rfl
  | cons e es ih =>
    intro s
    have hstep := processOddsEntryFD_state fid s e
    by_cases h : (e.fixture_id != fid) = true
    · have : (e.fixture_id == fid) = false := by
        simpa [bne] using h
      unfold entriesStateFD
      rw [List.foldl_cons, hstep.1 h]
      rw [List.filter_cons_of_neg (by simp [this])]
      exact ih s
    · have hmatch : (e.fixture_id == fid) = true := by
        simpa [bne] using h
      have hs := hstep.2 (by simpa using h)
      unfold entriesStateFD
      rw [List.foldl_cons]
      rw [List.filter_cons_of_pos (by simp [hmatch])]
      have := ih (processOddsEntryFD fid s e).1
      unfold entriesStateFD at this
      rw [this]
      have hlen : (((processOddsEntryFD fid s e).1).oddsFor fid).length =
          (s.oddsFor fid).length + 1 := by
        unfold OddsStore.oddsFor
        rw [hs.1, List.filter_append, List.length_append]
        simp
      rw [hlen, List.length_cons]
      omega

/-- Entry-loop invariant: every FixtureOdds row of the reached state is an
original row or carries a freshly generated id. -/
lemma entriesStateFD_fresh (fid : Nat) :
    ∀ (es : List OddsEntryPayload) (s : OddsStore) (r : FixtureOddsRow),
      r ∈ (entriesStateFD fid s es).fixture_odds →
        r ∈ s.fixture_odds ∨ s.next_id ≤ r.id := by
  intro es
  induction es with
  | nil => intro s r hr; exact Or.inl hr
  | cons e es ih =>
    intro s r hr
    have hstep := processOddsEntryFD_state fid s e
    by_cases h : (e.fixture_id != fid) = true
    · unfold entriesStateFD at hr
      rw [List.foldl_cons, hstep.1 h] at hr
      exact ih s r hr
    · have hs := hstep.2 (by simpa using h)
      unfold entriesStateFD at hr
      rw [List.foldl_cons] at hr
      rcases ih (processOddsEntryFD fid s e).1 r hr with hin | hge
      · rw [hs.1] at hin
        rcases List.mem_append.mp hin with hold | hnew
        · exact Or.inl hold
        · right
          simp only [List.mem_singleton] at hnew
          subst hnew
          exact Nat.le_refl _
      · exact Or.inr (Nat.le_trans hs.2 hge)

/-- Deleting the odds tree of a fixture removes all of its FixtureOdds rows
and keeps the id counter. -/
lemma deleteOddsTree_spec (s : OddsStore) (fid : Nat) :
    (deleteOddsTree s fid).oddsFor fid = [] ∧
      (deleteOddsTree s fid).next_id = s.next_id ∧
      ∀ r ∈ (deleteOddsTree s fid).fixture_odds, r ∈ s.fixture_odds := by
  refine ⟨?_, rfl, ?_⟩
  · unfold deleteOddsTree OddsStore.oddsFor
    rw [List.filter_eq_nil_iff]
    intro a ha
    simp only [List.mem_filter] at ha
    have hfalse := ha.2
    simp only [Bool.not_eq_true'] at hfalse
    simp [hfalse]
  · intro r hr
    unfold deleteOddsTree at hr
    simp only [List.mem_filter] at hr
    exact hr.1

/-- C2 (amended): the delete of the odds sub-tree is committed in a
transaction of its own before any insert: a run raising right after that
commit leaves the fixture with zero odds rows.  Only the run that reaches
the end replaces the tree — the old rows are gone and one FixtureOdds row
per matching entry of the new snapshot is present. -/
theorem odds_replace_delete_committed_separately (s : OddsStore) (fid : Nat)
    (resp : List OddsEntryPayload) (hresp : resp ≠ [])
    (hfresh : ∀ r ∈ s.fixture_odds, r.id < s.next_id) :
    (runOddsForFixture s fid resp (some 1)).oddsFor fid = [] ∧
    ((runOddsForFixture s fid resp none).oddsFor fid).length =
      (resp.filter (fun e => e.fixture_id == fid)).length ∧
    ∀ r ∈ s.oddsFor fid, r ∉ (runOddsForFixture s fid resp none).fixture_odds := by
  have hne : resp.isEmpty = false := by
    cases resp with
    | nil => exact absurd rfl hresp
    | cons a l => rfl
  have hdel := deleteOddsTree_spec s fid
  have hrun1 : runOddsForFixture s fid resp (some 1) = deleteOddsTree s fid := by
    unfold runOddsForFixture fetchAndStoreOddsForFixture
    rw [hne]
    simp [List.getD]
  have hrunNone : runOddsForFixture s fid resp none =
      entriesStateFD fid (deleteOddsTree s fid) resp := by
    unfold runOddsForFixture fetchAndStoreOddsForFixture
    rw [hne]
    simp only []
    exact processOddsEntriesFD_fst fid resp (deleteOddsTree s fid)
  refine ⟨by rw [hrun1]; exact hdel.1, ?_, ?_⟩
  · rw [hrunNone, entriesStateFD_oddsFor_length fid resp (deleteOddsTree s fid), hdel.1]
    simp
  · intro r hr hcontra
    rw [hrunNone] at hcontra
    rcases entriesStateFD_fresh fid resp (deleteOddsTree s fid) r hcontra with hin | hge
    · have hrfid : (r.fixture_id == fid) = true := by
        unfold OddsStore.oddsFor at hr
        exact (List.mem_filter.mp hr).2
      have : r ∈ (deleteOddsTree s fid).oddsFor fid := by
        unfold OddsStore.oddsFor
        exact List.mem_filter.mpr ⟨hin, hrfid⟩
      rw [hdel.1] at this
      exact absurd this (List.not_mem_nil r)
    · have hrs : r ∈ s.fixture_odds := by
        unfold OddsStore.oddsFor at hr
        exact (List.mem_filter.mp hr).1
      have := hfresh r hrs
      rw [hdel.2.1] at hge
      omega

/-- Witness for the C2 theorem at the concrete pre-populated store. -/
theorem odds_replace_delete_committed_separately_witness :
    (runOddsForFixture oddsTreeStoreOld 1 oddsPayloadNew (some 1)).oddsFor 1 = [] ∧
    ((runOddsForFixture oddsTreeStoreOld 1 oddsPayloadNew none).oddsFor 1).length =
      (oddsPayloadNew.filter (fun e => e.fixture_id == 1)).length := by
  have h := odds_replace_delete_committed_separately oddsTreeStoreOld 1 oddsPayloadNew
    (by decide) (by decide)
  exact ⟨h.1, h.2.1⟩

/-- A fixture passing the standings WHERE conditions is a full-time one. -/
lemma standingsFixtureCond_status (L : Nat) (Y : Int) (f : FixtureRow) :
    standingsFixtureCond L Y f = true → f.status_short = "FT" := by
  unfold standingsFixtureCond
  intro h
  simp only [Bool.and_eq_true, beq_iff_eq] at h
  exact h.1.2

/-- Pre-restricting a fixture list to full-time rows does not change any
filter whose predicate already forces full-time. -/
lemma filter_ft_absorb (p : FixtureRow → Bool)
    (hp : ∀ f, p f = true → f.status_short = "FT") (l : List FixtureRow) :
    (l.filter (fun f => f.status_short == "FT")).filter p = l.filter p := by
  rw [List.filter_filter]
  apply List.filter_congr
  intro f hf
  cases hq : p f
  · simp
  · simp [hp f hq]

/-- The per-team fixture group only sees full-time fixtures. -/
lemma teamFixtures_ft (L : Nat) (Y : Int) (fixtures : List FixtureRow) (t : Nat) :
    teamFixtures L Y (fixtures.filter (fun f => f.status_short == "FT")) t =
      teamFixtures L Y fixtures t := by
  unfold teamFixtures
  apply filter_ft_absorb
  intro f h
  simp only [Bool.and_eq_true] at h
  exact standingsFixtureCond_status L Y f h.2

/-- The stats subquery only sees full-time fixtures. -/
lemma teamStats_ft (L : Nat) (Y : Int) (fixtures : List FixtureRow) (t : Nat) :
    teamStats L Y (fixtures.filter (fun f => f.status_short == "FT")) t =
      teamStats L Y fixtures t := by
  unfold teamStats
  rw [teamFixtures_ft]

/-- C4 (counterexample): a fixture concluded after extra time (status AET) is
terminal per the spec, matches league 39 / season 2024 and involves teams 1
and 2 — yet the standings conditions, the recent-form query and the
head-to-head query all reject it, and the standings and recent-form outputs
over a store holding only this fixture are empty. -/
theorem aggregation_excludes_non_ft_terminal_fixture :
    isTerminalStatus "AET" = true ∧
    aetFixture.status_short = "AET" ∧
    aetFixture.league_id = 39 ∧
    aetFixture.season_year = 2024 ∧
    standingsFixtureCond 39 2024 aetFixture = false ∧
    recentFormCond 1 aetFixture = false ∧
    headToHeadCond 1 2 aetFixture = false ∧
    getLeagueStandings 39 2024 aetOnlyDB = [] ∧
    getTeamRecentForm 1 15 [aetFixture] = [] := by
  decide

/-- C4 (amended): the standings aggregation, the recent-form query and the
head-to-head query consider exactly the fixtures whose status_short is
'FT': restricting the store to its full-time fixtures changes none of the
three outputs, and each query's condition forces status 'FT'. -/
theorem aggregation_considers_exactly_full_time :
    ∀ (db : StandingsDB) (leagueId : Nat) (seasonYear : Int)
      (t lim t1 t2 : Nat) (fixtures : List FixtureRow),
      getLeagueStandings leagueId seasonYear
          { db with fixtures := db.fixtures.filter (fun f => f.status_short == "FT") } =
        getLeagueStandings leagueId seasonYear db ∧
      getTeamRecentForm t lim (fixtures.filter (fun f => f.status_short == "FT")) =
        getTeamRecentForm t lim fixtures ∧
      getHeadToHeadFixtures t1 t2 lim
          (fixtures.filter (fun f => f.status_short == "FT")) =
        getHeadToHeadFixtures t1 t2 lim fixtures ∧
      (∀ f : FixtureRow, standingsFixtureCond leagueId seasonYear f = true →
        f.status_short = "FT") ∧
      (∀ f : FixtureRow, recentFormCond t f = true → f.status_short = "FT") ∧
      (∀ f : FixtureRow, headToHeadCond t1 t2 f = true → f.status_short = "FT") := by
  intro db leagueId seasonYear t lim t1 t2 fixtures
  refine ⟨?_, ?_, ?_, standingsFixtureCond_status leagueId seasonYear, ?_, ?_⟩
  · unfold getLeagueStandings standingsQueryRows
    simp only [teamStats_ft]
  · unfold getTeamRecentForm
    rw [filter_ft_absorb]
    intro f h
    simp only [recentFormCond, Bool.and_eq_true, beq_iff_eq] at h
    exact h.2
  · unfold getHeadToHeadFixtures
    rw [filter_ft_absorb]
    intro f h
    simp only [headToHeadCond, Bool.and_eq_true, beq_iff_eq] at h
    exact h.2
  · intro f h
    simp only [recentFormCond, Bool.and_eq_true, beq_iff_eq] at h
    exact h.2
  · intro f h
    simp only [headToHeadCond, Bool.and_eq_true, beq_iff_eq] at h
    exact h.2

/-- Witness for the C4 theorem at the scenario store and a concrete
full-time fixture. -/
theorem aggregation_considers_exactly_full_time_witness :
    getTeamRecentForm 1 15 ([aetFixture].filter (fun f => f.status_short == "FT")) =
      getTeamRecentForm 1 15 [aetFixture] ∧
    (mkScenarioFixture 101 1 2 2 0).status_short = "FT" := by
  have h := aggregation_considers_exactly_full_time standingsScenarioDB 39 2024 1 15 1 2
    [aetFixture]
  exact ⟨h.2.1, h.2.2.2.1 (mkScenarioFixture 101 1 2 2 0) (by decide)⟩

/-- Membership in an insertion step. -/
lemma mem_insertSorted (le : α → α → Bool) (x : α) :
    ∀ (l : List α) (a : α), a ∈ insertSorted le x l ↔ a = x ∨ a ∈ l := by
  intro l
  induction l with
  | nil => intro a; simp [insertSorted]
  | cons y ys ih =>
    intro a
    unfold insertSorted
    split
    · simp [List.mem_cons]
    · simp only [List.mem_cons, ih]
      tauto

/-- Inserting into a list sorted by a total transitive boolean preorder
keeps it sorted. -/
lemma pairwise_insertSorted (le : α → α → Bool)
    (htot : ∀ a b, le a b = false → le b a = true)
    (htrans : ∀ a b c, le a b = true → le b c = true → le a c = true) :
    ∀ (l : List α) (x : α), l.Pairwise (fun a b => le a b = true) →
      (insertSorted le x l).Pairwise (fun a b => le a b = true) := by
  intro l
  induction l with
  | nil => intro x h; simp [insertSorted]
  | cons y ys ih =>
    intro x h
    rcases List.pairwise_cons.mp h with ⟨hy, hys⟩
    unfold insertSorted
    by_cases hle : le x y = true
    · rw [if_pos hle]
      refine List.pairwise_cons.mpr ⟨?_, h⟩
      intro b hb
      rcases List.mem_cons.mp hb with rfl | hb
      · exact hle
      · exact htrans x y b hle (hy b hb)
    · rw [if_neg hle]
      refine List.pairwise_cons.mpr ⟨?_, ih x hys⟩
      intro b hb
      rcases (mem_insertSorted le x ys b).mp hb with hbx | hb
      · subst hbx
        exact htot _ y (by simpa using hle)
      · exact hy b hb

/-- The insertion sort is sorted for a total transitive boolean preorder. -/
lemma pairwise_insertionSort (le : α → α → Bool)
    (htot : ∀ a b, le a b = false → le b a = true)
    (htrans : ∀ a b c, le a b = true → le b c = true → le a c = true) :
    ∀ l : List α, (insertionSort le l).Pairwise (fun a b => le a b = true) := by
  intro l
  induction l with
  | nil => simp [insertionSort]
  | cons x xs ih => exact pairwise_insertSorted le htot htrans _ x ih

/-- The insertion sort is a permutation in the membership sense. -/
lemma mem_insertionSort (le : α → α → Bool) :
    ∀ (l : List α) (a : α), a ∈ insertionSort le l ↔ a ∈ l := by
  intro l
  induction l with
  | nil => intro a; rfl
  | cons x xs ih =>
    intro a
    unfold insertionSort
    rw [mem_insertSorted, ih, List.mem_cons]

/-- DESC-with-NULLS-FIRST trichotomy on one nullable key. -/
lemma optDescLt_cases (a b : Option Int) :
    optDescLt a b = true ∨ a = b ∨ optDescLt b a = true := by
  cases a <;> cases b <;> simp [optDescLt] <;> omega

/-- DESC-with-NULLS-FIRST transitivity on one nullable key. -/
lemma optDescLt_trans (a b c : Option Int) :
    optDescLt a b = true → optDescLt b c = true → optDescLt a c = true := by
  cases a <;> cases b <;> cases c <;> simp [optDescLt] <;> omega

/-- The ORDER BY comparator, written as a proposition. -/
lemma standingsOrder_iff (a b : StandingsQueryRow) :
    standingsOrder a b = true ↔
      (optDescLt a.points b.points = true ∨
        (a.points = b.points ∧
          (optDescLt a.goal_difference b.goal_difference = true ∨
            (a.goal_difference = b.goal_difference ∧
              (optDescLt a.goals_for b.goals_for = true ∨ a.goals_for = b.goals_for))))) := by
  unfold standingsOrder
  simp [Bool.or_eq_true, Bool.and_eq_true]

/-- The ORDER BY comparator is transitive. -/
lemma standingsOrder_trans (a b c : StandingsQueryRow) :
    standingsOrder a b = true → standingsOrder b c = true →
      standingsOrder a c = true := by
  rw [standingsOrder_iff, standingsOrder_iff, standingsOrder_iff]
  rintro (h1 | ⟨hp1, h1⟩) (h2 | ⟨hp2, h2⟩)
  · exact Or.inl (optDescLt_trans _ _ _ h1 h2)
  · exact Or.inl (hp2 ▸ h1)
  · exact Or.inl (hp1 ▸ h2)
  · refine Or.inr ⟨hp1.trans hp2, ?_⟩
    rcases h1 with h1 | ⟨hg1, h1⟩ <;> rcases h2 with h2 | ⟨hg2, h2⟩
    · exact Or.inl (optDescLt_trans _ _ _ h1 h2)
    · exact Or.inl (hg2 ▸ h1)
    · exact Or.inl (hg1 ▸ h2)
    · refine Or.inr ⟨hg1.trans hg2, ?_⟩
      rcases h1 with h1 | h1 <;> rcases h2 with h2 | h2
      · exact Or.inl (optDescLt_trans _ _ _ h1 h2)
      · exact Or.inl (h2 ▸ h1)
      · exact Or.inl (h1 ▸ h2)
      · exact Or.inr (h1.trans h2)

/-- The ORDER BY comparator is total. -/
lemma standingsOrder_total (a b : StandingsQueryRow) :
    standingsOrder a b = false → standingsOrder b a = true := by
  intro hf
  rcases optDescLt_cases a.points b.points with h | h | h
  · exact absurd ((standingsOrder_iff a b).mpr (Or.inl h)) (by simp [hf])
  · rcases optDescLt_cases a.goal_difference b.goal_difference with g | g | g
    · exact absurd ((standingsOrder_iff a b).mpr (Or.inr ⟨h, Or.inl g⟩)) (by simp [hf])
    · rcases optDescLt_cases a.goals_for b.goals_for with f | f | f
      · exact absurd ((standingsOrder_iff a b).mpr
          (Or.inr ⟨h, Or.inr ⟨g, Or.inl f⟩⟩)) (by simp [hf])
      · exact absurd ((standingsOrder_iff a b).mpr
          (Or.inr ⟨h, Or.inr ⟨g, Or.inr f⟩⟩)) (by simp [hf])
      · exact (standingsOrder_iff b a).mpr (Or.inr ⟨h.symm, Or.inr ⟨g.symm, Or.inl f⟩⟩)
    · exact (standingsOrder_iff b a).mpr (Or.inr ⟨h.symm, Or.inl g⟩)
  · exact (standingsOrder_iff b a).mpr (Or.inl h)

/-- A SQL SUM over a non-empty list of non-NULL values is non-NULL. -/
lemma sqlSum_isSome (l : List (Option Int)) (hne : l ≠ [])
    (hall : ∀ x ∈ l, x.isSome) : (sqlSum l).isSome := by
  unfold sqlSum
  dsimp only
  split
  · next hempty =>
    cases l with
    | nil => exact absurd rfl hne
    | cons x xs =>
      have hx := hall x (List.mem_cons_self x xs)
      obtain ⟨v, hv⟩ := Option.isSome_iff_exists.mp hx
      have : v ∈ (x :: xs).filterMap id := by
        rw [List.mem_filterMap]
        exact ⟨x, List.mem_cons_self x xs, by rw [hv]; rfl⟩
      rw [List.isEmpty_iff] at hempty
      rw [hempty] at this
      exact absurd this (List.not_mem_nil v)
  · rfl

/-- Every standings query row is a stats-subquery row of some team. -/
lemma mem_standingsQueryRows (L : Nat) (Y : Int) (db : StandingsDB)
    (r : StandingsQueryRow) (hr : r ∈ standingsQueryRows L Y db) :
    ∃ t, teamStats L Y db.fixtures t = some r := by
  unfold standingsQueryRows at hr
  rw [List.mem_flatMap] at hr
  obtain ⟨t, ht, hmem⟩ := hr
  cases hstat : teamStats L Y db.fixtures t.team_id with
  | none => rw [hstat] at hmem; exact absurd hmem (List.not_mem_nil r)
  | some st =>
    rw [hstat] at hmem
    rw [List.mem_map] at hmem
    obtain ⟨tl, htl, hst⟩ := hmem
    exact ⟨t.team_id, by rw [hstat, hst]⟩

/-- Shape of a produced stats-subquery row: the SUM columns are non-NULL
wherever the summed expressions are, and points / goal difference are
computed from the other columns. -/
lemma teamStats_some_props (L : Nat) (Y : Int) (fixtures : List FixtureRow)
    (t : Nat) (r : StandingsQueryRow)
    (hg : ∀ f ∈ fixtures, f.goals_home.isSome ∧ f.goals_away.isSome)
    (h : teamStats L Y fixtures t = some r) :
    r.wins.isSome ∧ r.draws.isSome ∧ r.goals_for.isSome ∧ r.goals_against.isSome ∧
      r.points = optAdd (optMul r.wins 3) r.draws ∧
      r.goal_difference = optSub r.goals_for r.goals_against := by
  unfold teamStats at h
  dsimp only at h
  split at h
  · exact absurd h (by simp)
  · next hne =>
    have hgrpne : teamFixtures L Y fixtures t ≠ [] := by
      intro hc
      rw [hc] at hne
      exact hne rfl
    have hsub : ∀ f ∈ teamFixtures L Y fixtures t, f ∈ fixtures := by
      intro f hf
      unfold teamFixtures at hf
      exact (List.mem_filter.mp hf).1
    rw [Option.some.injEq] at h
    subst h
    refine ⟨?_, ?_, ?_, ?_, rfl, rfl⟩
    · exact sqlSum_isSome _ (by simpa using hgrpne) (by
        intro x hx
        rw [List.mem_map] at hx
        obtain ⟨f, hf, rfl⟩ := hx
        rfl)
    · exact sqlSum_isSome _ (by simpa using hgrpne) (by
        intro x hx
        rw [List.mem_map] at hx
        obtain ⟨f, hf, rfl⟩ := hx
        rfl)
    · refine sqlSum_isSome _ (by simpa using hgrpne) ?_
      intro x hx
      rw [List.mem_map] at hx
      obtain ⟨f, hf, rfl⟩ := hx
      unfold goalsForCase
      split
      · exact (hg f (hsub f hf)).1
      · split
        · exact (hg f (hsub f hf)).2
        · rfl
    · refine sqlSum_isSome _ (by simpa using hgrpne) ?_
      intro x hx
      rw [List.mem_map] at hx
      obtain ⟨f, hf, rfl⟩ := hx
      unfold goalsAgainstCase
      split
      · exact (hg f (hsub f hf)).2
      · split
        · exact (hg f (hsub f hf)).1
        · rfl

/-- The rank loop assigns consecutive ranks starting from its counter. -/
lemma rankLoop_map_rank :
    ∀ (l : List StandingsQueryRow) (k : Nat),
      (rankLoop k l).map (·.rank) = List.range' k l.length := by
  intro l
  induction l with
  | nil => intro k; rfl
  | cons r rs ih =>
    intro k
    show TeamStanding.rank (standingOfRow k r) :: (rankLoop (k + 1) rs).map (·.rank) =
      List.range' k (rs.length + 1)
    rw [List.range'_succ, ih]
    rfl

/-- Every element of the rank loop output is a ranked copy of an input row. -/
lemma mem_rankLoop :
    ∀ (l : List StandingsQueryRow) (k : Nat) (x : TeamStanding),
      x ∈ rankLoop k l → ∃ i r, r ∈ l ∧ x = standingOfRow i r := by
  intro l
  induction l with
  | nil => intro k x hx; exact absurd hx (List.not_mem_nil x)
  | cons r rs ih =>
    intro k x hx
    rcases List.mem_cons.mp hx with rfl | hx
    · exact ⟨k, r, List.mem_cons_self r rs, rfl⟩
    · obtain ⟨i, q, hq, hxq⟩ := ih (k + 1) x hx
      exact ⟨i, q, List.mem_cons_of_mem r hq, hxq⟩

/-- The rank loop transports a pairwise relation that ignores the rank. -/
lemma rankLoop_pairwise {R : StandingsQueryRow → StandingsQueryRow → Prop}
    {S : TeamStanding → TeamStanding → Prop}
    (h : ∀ (i j : Nat) (a b : StandingsQueryRow), R a b →
      S (standingOfRow i a) (standingOfRow j b)) :
    ∀ (l : List StandingsQueryRow) (k : Nat),
      l.Pairwise R → (rankLoop k l).Pairwise S := by
  intro l
  induction l with
  | nil => intro k hp; exact List.Pairwise.nil
  | cons r rs ih =>
    intro k hp
    rcases List.pairwise_cons.mp hp with ⟨hr, hrs⟩
    refine List.pairwise_cons.mpr ⟨?_, ih (k + 1) hrs⟩
    intro y hy
    obtain ⟨i, q, hq, rfl⟩ := mem_rankLoop rs (k + 1) y hy
    exact h k i r q (hr q hq)

/-- The rank loop keeps the number of rows. -/
lemma rankLoop_length :
    ∀ (l : List StandingsQueryRow) (k : Nat), (rankLoop k l).length = l.length := by
  intro l
  induction l with
  | nil => intro k; rfl
  | cons r rs ih =>
    intro k
    show (rankLoop (k + 1) rs).length + 1 = rs.length + 1
    rw [ih]

/-- The non-NULL key fields a query row is known to carry. -/
def rowKeysSome (r : StandingsQueryRow) : Prop :=
  (∃ p, r.points = some p) ∧ (∃ g, r.goal_difference = some g) ∧
    (∃ f, r.goals_for = some f)

/-- Key fields of a standings query row over concluded fixtures are
non-NULL. -/
lemma standingsQueryRows_keysSome (L : Nat) (Y : Int) (db : StandingsDB)
    (hg : ∀ f ∈ db.fixtures, f.goals_home.isSome ∧ f.goals_away.isSome)
    (r : StandingsQueryRow) (hr : r ∈ standingsQueryRows L Y db) : rowKeysSome r := by
  obtain ⟨t, ht⟩ := mem_standingsQueryRows L Y db r hr
  obtain ⟨hw, hd, hgf, hga, hpts, hgd⟩ := teamStats_some_props L Y db.fixtures t r hg ht
  obtain ⟨w, hw⟩ := Option.isSome_iff_exists.mp hw
  obtain ⟨d, hd⟩ := Option.isSome_iff_exists.mp hd
  obtain ⟨gf, hgf⟩ := Option.isSome_iff_exists.mp hgf
  obtain ⟨ga, hga⟩ := Option.isSome_iff_exists.mp hga
  refine ⟨⟨w * 3 + d, ?_⟩, ⟨gf - ga, ?_⟩, ⟨gf, hgf⟩⟩
  · rw [hpts, hw, hd]; rfl
  · rw [hgd, hgf, hga]; rfl

/-- The boolean ORDER BY comparator transports, on rows with non-NULL keys,
to the coalesced ordering of the response rows. -/
lemma standingsOrder_to_final (i j : Nat) (a b : StandingsQueryRow)
    (hab : standingsOrder a b = true) (ha : rowKeysSome a) (hb : rowKeysSome b) :
    standingFinalOrder (standingOfRow i a) (standingOfRow j b) := by
  obtain ⟨⟨pa, hpa⟩, ⟨ga, hga⟩, ⟨fa, hfa⟩⟩ := ha
  obtain ⟨⟨pb, hpb⟩, ⟨gb, hgb⟩, ⟨fb, hfb⟩⟩ := hb
  unfold standingFinalOrder standingOfRow pyOrZero
  simp only []
  rw [hpa, hpb, hga, hgb, hfa, hfb]
  simp only [Option.getD_some]
  rcases (standingsOrder_iff a b).mp hab with h | ⟨hp, h⟩
  · rw [hpa, hpb] at h
    simp only [optDescLt, decide_eq_true_eq] at h
    exact Or.inl h
  · rw [hpa, hpb] at hp
    rw [Option.some.injEq] at hp
    refine Or.inr ⟨hp, ?_⟩
    rcases h with h | ⟨hg2, h⟩
    · rw [hga, hgb] at h
      simp only [optDescLt, decide_eq_true_eq] at h
      exact Or.inl h
    · rw [hga, hgb] at hg2
      rw [Option.some.injEq] at hg2
      refine Or.inr ⟨hg2, ?_⟩
      rcases h with h | h
      · rw [hfa, hfb] at h
        simp only [optDescLt, decide_eq_true_eq] at h
        omega
      · rw [hfa, hfb] at h
        rw [Option.some.injEq] at h
        omega

/-- C5 (amended): in every standings computation over concluded fixtures,
each row's points are wins×3 + draws and its goal difference is goals_for −
goals_against; the rows are ordered by points, then goal difference, then
goals_for, all descending, and ranks run 1, 2, 3, …; on the three-fixture
scenario the result is A (6 points, GD +4) at rank 1, then C (1 point, GD
−2, 2 goals for), then B (1 point, GD −2, 1 goal for) — B and C tie on
points and on goal difference (−2 each, not −1 and −3), so theirs is a
goals-for tie-break, won by C. -/
theorem standings_points_order_ranks (db : StandingsDB) (leagueId : Nat)
    (seasonYear : Int)
    (hg : ∀ f ∈ db.fixtures, f.goals_home.isSome ∧ f.goals_away.isSome) :
    (∀ row ∈ getLeagueStandings leagueId seasonYear db,
        row.points = row.wins * 3 + row.draws ∧
        row.goal_difference = row.goals_for - row.goals_against) ∧
    ((getLeagueStandings leagueId seasonYear db).map (·.rank) =
        List.range' 1 (getLeagueStandings leagueId seasonYear db).length) ∧
    (getLeagueStandings leagueId seasonYear db).Pairwise standingFinalOrder ∧
    ((getLeagueStandings 39 2024 standingsScenarioDB).map (fun r =>
        (r.team_id, r.rank, r.matches_played, r.points, r.wins, r.draws, r.losses,
          r.goals_for, r.goals_against, r.goal_difference)) =
      [(1, 1, 2, 6, 2, 0, 0, 5, 1, 4), (3, 2, 2, 1, 0, 1, 1, 2, 4, -2),
        (2, 3, 2, 1, 0, 1, 1, 1, 3, -2)]) := by
  have hsortmem : ∀ r ∈ insertionSort standingsOrder
      (standingsQueryRows leagueId seasonYear db),
      r ∈ standingsQueryRows leagueId seasonYear db := by
    intro r hr
    exact (mem_insertionSort standingsOrder _ r).mp hr
  refine ⟨?_, ?_, ?_, ?_⟩
  · intro row hrow
    obtain ⟨i, r, hr, rfl⟩ := mem_rankLoop _ 1 row hrow
    obtain ⟨t, ht⟩ := mem_standingsQueryRows leagueId seasonYear db r (hsortmem r hr)
    obtain ⟨hw, hd, hgf, hga, hpts, hgd⟩ :=
      teamStats_some_props leagueId seasonYear db.fixtures t r hg ht
    obtain ⟨w, hw⟩ := Option.isSome_iff_exists.mp hw
    obtain ⟨d, hd⟩ := Option.isSome_iff_exists.mp hd
    obtain ⟨gf, hgf⟩ := Option.isSome_iff_exists.mp hgf
    obtain ⟨ga, hga⟩ := Option.isSome_iff_exists.mp hga
    constructor
    · show pyOrZero r.points = pyOrZero r.wins * 3 + pyOrZero r.draws
      rw [hpts, hw, hd]
      rfl
    · show pyOrZero r.goal_difference = pyOrZero r.goals_for - pyOrZero r.goals_against
      rw [hgd, hgf, hga]
      rfl
  · show (rankLoop 1 _).map (·.rank) = List.range' 1 (rankLoop 1 _).length
    rw [rankLoop_map_rank, rankLoop_length]
  · have hpair := pairwise_insertionSort standingsOrder standingsOrder_total
      standingsOrder_trans (standingsQueryRows leagueId seasonYear db)
    have hpair2 : (insertionSort standingsOrder
        (standingsQueryRows leagueId seasonYear db)).Pairwise
        (fun a b => standingsOrder a b = true ∧ rowKeysSome a ∧ rowKeysSome b) := by
      refine List.Pairwise.imp_of_mem ?_ hpair
      intro a b ha hb hab
      exact ⟨hab,
        standingsQueryRows_keysSome leagueId seasonYear db hg a (hsortmem a ha),
        standingsQueryRows_keysSome leagueId seasonYear db hg b (hsortmem b hb)⟩
    exact rankLoop_pairwise
      (fun i j a b h => standingsOrder_to_final i j a b h.1 h.2.1 h.2.2) _ 1 hpair2
  · rfl

/-- C5 (counterexample): on the spec's own three-fixture scenario the code
yields goal difference −2 for both B and C (the spec claims −1 and −3), and
ranks C second, above B — not B above C. -/
theorem standings_scenario_contradicts_spec_figures :
    ((getLeagueStandings 39 2024 standingsScenarioDB).filter
        (fun r => r.team_id == 2)).map (fun r => r.goal_difference) = [-2] ∧
    ((getLeagueStandings 39 2024 standingsScenarioDB).filter
        (fun r => r.team_id == 3)).map (fun r => r.goal_difference) = [-2] ∧
    (getLeagueStandings 39 2024 standingsScenarioDB).map
        (fun r => (r.team_id, r.rank)) = [(1, 1), (3, 2), (2, 3)] := by
  decide

/-- Witness for the C5 theorem at the scenario store. -/
theorem standings_points_order_ranks_witness :
    (getLeagueStandings 39 2024 standingsScenarioDB).map (·.rank) =
      List.range' 1 (getLeagueStandings 39 2024 standingsScenarioDB).length :=
  (standings_points_order_ranks standingsScenarioDB 39 2024 (by decide)).2.1

end FootballBackend
